import Mathlib

/-!
Shallow embedding of the gameGL tavern renderer (src/main.c,
src/src/tavern_renderer.c, src/src/main_state.c, include/tavern_renderer.h).

Machine floats are modelled as exact rationals (ℚ); all constants of the
source (0.5f, 89.0f, 1.4f, ...) are exactly representable.  OpenGL calls are
modelled as event traces; GL handles (GLuint ids) are not modelled except
where a claim needs them.  External library functions that are not part of
this repository (math.h trigonometry, math_3d.h v3_norm) are abstracted as a
parameter record `CMathLib`; nothing proved below depends on their values.
-/

namespace GameGL

/-- vec3_t from math_3d.h (vendor single-header math library). -/
structure Vec3 where
  x : ℚ
  y : ℚ
  z : ℚ
  deriving DecidableEq, Repr

instance : Inhabited Vec3 := ⟨⟨0, 0, 0⟩⟩

/-- vec3 constructor macro from math_3d.h. -/
def vec3 (x y z : ℚ) : Vec3 := ⟨x, y, z⟩

/-- v3_add from math_3d.h. -/
def v3_add (a b : Vec3) : Vec3 := ⟨a.x + b.x, a.y + b.y, a.z + b.z⟩

/-- v3_sub from math_3d.h. -/
def v3_sub (a b : Vec3) : Vec3 := ⟨a.x - b.x, a.y - b.y, a.z - b.z⟩

/-- v3_muls from math_3d.h (scale by a scalar). -/
def v3_muls (a : Vec3) (s : ℚ) : Vec3 := ⟨a.x * s, a.y * s, a.z * s⟩

/-- v3_cross from math_3d.h. -/
def v3_cross (a b : Vec3) : Vec3 :=
  ⟨a.y * b.z - a.z * b.y, a.z * b.x - a.x * b.z, a.x * b.y - a.y * b.x⟩

/-- The single-precision value of M_PIf used in tavern_renderer.c
(0x40490FDB = 13176795 / 2^22). -/
def M_PIf : ℚ := 13176795 / 4194304

/-- Abstraction of external math library routines used by the renderer but
not part of this repository: cosf/sinf from math.h and v3_norm from
math_3d.h.  The theorems below hold for every interpretation of these. -/
structure CMathLib where
  cosf : ℚ → ℚ
  sinf : ℚ → ℚ
  v3_norm : Vec3 → Vec3

/-- Camera from tavern_renderer.h. -/
structure Camera where
  position : Vec3
  front : Vec3
  up : Vec3
  right : Vec3
  yaw : ℚ
  pitch : ℚ
  speed : ℚ
  sensitivity : ℚ
  deriving DecidableEq, Repr

/-- camera_init (tavern_renderer.c lines 65-73).  The `right` field is not
assigned there; the camera lives in zero-initialised static storage, so it
starts as the zero vector. -/
def camera_init : Camera :=
  { position := vec3 0 (8/5) 5
    front := vec3 0 0 (-1)
    up := vec3 0 1 0
    right := vec3 0 0 0
    yaw := -90
    pitch := 0
    speed := 5
    sensitivity := 1/10 }

/-- The function-local static variables of camera_update
(lastX, lastY, firstMouse; tavern_renderer.c lines 87-88). -/
structure MouseStatics where
  lastX : ℚ
  lastY : ℚ
  firstMouse : Bool
  deriving DecidableEq, Repr

def mouse_statics_init : MouseStatics := ⟨400, 300, true⟩

/-- Per-frame inputs read by camera_update: the four WASD key states and the
cursor position returned by glfwGetCursorPos. -/
structure CameraInput where
  keyW : Bool
  keyA : Bool
  keyS : Bool
  keyD : Bool
  xpos : ℚ
  ypos : ℚ
  deriving DecidableEq, Repr

/-- The pitch update of camera_update (tavern_renderer.c lines 108-111):
increment, then clamp above 89, then clamp below -89. -/
def updated_pitch (pitch yoffset : ℚ) : ℚ :=
  let p := pitch + yoffset
  let p := if p > 89 then (89 : ℚ) else p
  if p < -89 then (-89 : ℚ) else p

/-- camera_update (tavern_renderer.c lines 75-122). -/
def camera_update (ml : CMathLib) (cam : Camera) (ms : MouseStatics)
    (inp : CameraInput) (deltaTime : ℚ) : Camera × MouseStatics :=
  let cam := if inp.keyW then
      { cam with position := v3_add cam.position (v3_muls cam.front (cam.speed * deltaTime)) }
    else cam
  let cam := if inp.keyS then
      { cam with position := v3_sub cam.position (v3_muls cam.front (cam.speed * deltaTime)) }
    else cam
  let strafe := v3_muls (ml.v3_norm (v3_cross cam.front cam.up)) (cam.speed * deltaTime)
  let cam := if inp.keyA then { cam with position := v3_sub cam.position strafe } else cam
  let strafe := v3_muls (ml.v3_norm (v3_cross cam.front cam.up)) (cam.speed * deltaTime)
  let cam := if inp.keyD then { cam with position := v3_add cam.position strafe } else cam
  let lastX := if ms.firstMouse then inp.xpos else ms.lastX
  let lastY := if ms.firstMouse then inp.ypos else ms.lastY
  let xoffset := (inp.xpos - lastX) * cam.sensitivity
  let yoffset := (lastY - inp.ypos) * cam.sensitivity
  let yaw := cam.yaw + xoffset
  let pitch := updated_pitch cam.pitch yoffset
  let direction : Vec3 :=
    ⟨ml.cosf (yaw * M_PIf / 180) * ml.cosf (pitch * M_PIf / 180),
      ml.sinf (pitch * M_PIf / 180),
      ml.sinf (yaw * M_PIf / 180) * ml.cosf (pitch * M_PIf / 180)⟩
  let front := ml.v3_norm direction
  let right := ml.v3_norm (v3_cross front (vec3 0 1 0))
  let up := ml.v3_norm (v3_cross right front)
  ({ cam with yaw := yaw, pitch := pitch, front := front, right := right, up := up },
    ⟨inp.xpos, inp.ypos, false⟩)

/-- A sequence of camera_update calls (the per-frame camera updates). -/
def camera_run (ml : CMathLib) (st : Camera × MouseStatics)
    (frames : List (CameraInput × ℚ)) : Camera × MouseStatics :=
  frames.foldl (fun st f => camera_update ml st.1 st.2 f.1 f.2) st

/-- The six cube-face view directions of render_cube_shadow_map
(tavern_renderer.c lines 185-192). -/
def directions : Fin 6 → Vec3
  | 0 => vec3 1 0 0
  | 1 => vec3 (-1) 0 0
  | 2 => vec3 0 1 0
  | 3 => vec3 0 (-1) 0
  | 4 => vec3 0 0 1
  | 5 => vec3 0 0 (-1)

/-- The six per-face up vectors of render_cube_shadow_map
(tavern_renderer.c lines 194-201). -/
def ups : Fin 6 → Vec3
  | 0 => vec3 0 (-1) 0
  | 1 => vec3 0 (-1) 0
  | 2 => vec3 0 0 1
  | 3 => vec3 0 0 (-1)
  | 4 => vec3 0 (-1) 0
  | 5 => vec3 0 (-1) 0

/-- Spec-side definition (§8(a) of the spec): the canonical cube-map face
axis order +X, -X, +Y, -Y, +Z, -Z. -/
def canonical_face_axis : Fin 6 → Vec3
  | 0 => vec3 1 0 0
  | 1 => vec3 (-1) 0 0
  | 2 => vec3 0 1 0
  | 3 => vec3 0 (-1) 0
  | 4 => vec3 0 0 1
  | 5 => vec3 0 0 (-1)

/-- GL calls issued by render_cube_shadow_map, in order. -/
inductive ShadowEvent where
  | bindShadowFramebuffer
  | setViewport (x y w h : ℤ)
  | useShadowProgram
  | setLightProjection (fovy aspect zNear zFar : ℚ)
  | setLightPos (p : Vec3)
  | setFarPlane (f : ℚ)
  | attachCubeFace (face : Fin 6)
  | clearDepth
  | setLightView (pos target up : Vec3)
  | renderScene
  | unbindFramebuffer
  deriving DecidableEq, Repr

/-- render_cube_shadow_map (tavern_renderer.c lines 183-236) as the trace of
GL calls it makes for a light at `lightPos`.  `renderScene` stands for the
call to the render_scene_func callback. -/
def render_cube_shadow_map (lightPos : Vec3) : List ShadowEvent :=
  [ShadowEvent.bindShadowFramebuffer,
   ShadowEvent.setViewport 0 0 512 512,
   ShadowEvent.useShadowProgram,
   ShadowEvent.setLightProjection 90 1 (1/10) 25,
   ShadowEvent.setLightPos lightPos,
   ShadowEvent.setFarPlane 25]
  ++ (List.finRange 6).flatMap (fun face =>
      [ShadowEvent.attachCubeFace face,
       ShadowEvent.clearDepth,
       ShadowEvent.setLightView lightPos (v3_add lightPos (directions face)) (ups face),
       ShadowEvent.renderScene])
  ++ [ShadowEvent.unbindFramebuffer]

/-- Selector for the face-attachment and scene-render events of the trace. -/
def isFaceOrRender : ShadowEvent → Bool
  | ShadowEvent.attachCubeFace _ => true
  | ShadowEvent.renderScene => true
  | _ => false

/-- GBuffer struct (tavern_renderer.h); the GL handles are opaque and
omitted, the claims concern the recorded dimensions. -/
structure GBuffer where
  width : ℤ
  height : ℤ
  deriving DecidableEq, Repr

/-- GL texture allocations made by gbuffer_init, in order. -/
inductive GBufferEvent where
  | genFramebuffer
  | bindFramebuffer
  | allocColorTexture (colorAttachment : ℕ) (width height : ℤ)
  | allocDepthTexture (width height : ℤ)
  | setDrawBuffers (n : ℕ)
  | unbindFramebuffer
  deriving DecidableEq, Repr

/-- gbuffer_init (tavern_renderer.c lines 4-47): records width/height in the
struct, then allocates the position (attachment 0), normal (attachment 1)
and albedo+specular (attachment 2) color textures and the depth texture,
all at width x height. -/
def gbuffer_init (width height : ℤ) : GBuffer × List GBufferEvent :=
  (⟨width, height⟩,
   [GBufferEvent.genFramebuffer,
    GBufferEvent.bindFramebuffer,
    GBufferEvent.allocColorTexture 0 width height,
    GBufferEvent.allocColorTexture 1 width height,
    GBufferEvent.allocColorTexture 2 width height,
    GBufferEvent.allocDepthTexture width height,
    GBufferEvent.setDrawBuffers 3,
    GBufferEvent.unbindFramebuffer])

/-- Extracts the color-texture allocations (attachment, width, height). -/
def colorAllocs (tr : List GBufferEvent) : List (ℕ × ℤ × ℤ) :=
  tr.filterMap (fun e => match e with
    | GBufferEvent.allocColorTexture a w h => some (a, w, h)
    | _ => none)

/-- Extracts the depth-texture allocations (width, height). -/
def depthAllocs (tr : List GBufferEvent) : List (ℤ × ℤ) :=
  tr.filterMap (fun e => match e with
    | GBufferEvent.allocDepthTexture w h => some (w, h)
    | _ => none)

/-- PointLight from tavern_renderer.h; the shadowFBO/shadowCubeMap GL
handles are opaque and omitted. -/
structure PointLight where
  position : Vec3
  color : Vec3
  radius : ℚ
  deriving DecidableEq, Repr

instance : Inhabited PointLight := ⟨⟨default, default, 0⟩⟩

/-- WallCandle from main_state.c lines 43-49. -/
structure WallCandle where
  position : Vec3
  intensity : ℚ
  flicker_speed : ℚ
  time_offset : ℚ
  light_index : ℕ
  deriving DecidableEq, Repr

/-- TableCandle from main_state.c lines 53-60. -/
structure TableCandle where
  base_position : Vec3
  flame_offset : Vec3
  intensity : ℚ
  flicker_speed : ℚ
  time_offset : ℚ
  light_index : ℕ
  deriving DecidableEq, Repr

/-- `lights[i]` array read (C array access; the array always has 8 slots). -/
def getLight (l : List PointLight) (i : ℕ) : PointLight := l.getD i default

/-- `lights[i] = f(lights[i])` array write, modelled structurally. -/
def updateLight : List PointLight → ℕ → (PointLight → PointLight) → List PointLight
  | [], _, _ => []
  | L :: rest, 0, f => f L :: rest
  | L :: rest, n + 1, f => L :: updateLight rest n f

/-- The loop `for (i = 0; i < base; i++) lights[i].radius = g;` of the Q/E
handlers (main_state.c lines 440-442 and 458-460). -/
def setCandleRadii : List PointLight → ℕ → ℚ → List PointLight
  | [], _, _ => []
  | l, 0, _ => l
  | L :: rest, b + 1, g => { L with radius := g } :: setCandleRadii rest b g

/-- `static int num_wall_candles = 3` (main_state.c line 63). -/
def num_wall_candles : ℕ := 3

/-- `static int num_table_candles = 3` (main_state.c line 65). -/
def num_table_candles : ℕ := 3

/-- The file-scope static state of main_state.c together with the
function-local statics of main_state_update (f/q/e/tab/r key latches) and
camera_update (mouse statics). -/
structure MainState where
  camera : Camera
  mouse : MouseStatics
  lights : List PointLight
  num_lights : ℕ
  base_num_lights : ℕ
  flashlight_active : Bool
  flashlight_distance : ℚ
  global_light_radius : ℚ
  flashlight_only_shadows : Bool
  wall_candles : List WallCandle
  table_candles : List TableCandle
  animation_time : ℚ
  startup_flashlight_timer : ℚ
  f_key_pressed : Bool
  q_key_pressed : Bool
  e_key_pressed : Bool
  tab_key_pressed : Bool
  r_key_pressed : Bool
  deriving Repr

/-- The inputs read by one main_state_update call: the frame delta time,
the key states polled with glfwGetKey, and the cursor position. -/
structure FrameInput where
  delta_time : ℚ
  keyW : Bool
  keyA : Bool
  keyS : Bool
  keyD : Bool
  keyF : Bool
  keyQ : Bool
  keyE : Bool
  keyTab : Bool
  keyR : Bool
  xpos : ℚ
  ypos : ℚ
  deriving DecidableEq, Repr

/-- The light offset from the wall surface toward the room center
(main_state.c lines 244-255 and 341-352: the same if-chain appears in
init and in the per-frame animation). -/
def wall_light_offset (i : ℕ) : Vec3 :=
  let off := vec3 0 (3/20) 0
  if i = 0 then vec3 0 (3/20) (1/2)
  else if i = 1 then vec3 (1/2) (3/20) 0
  else if i = 2 then vec3 (-1/2) (3/20) 0
  else off

/-- The wall-candle initializers (main_state.c lines 200-222). -/
def wall_candles_init : List WallCandle :=
  [⟨vec3 0 (9/5) (-103/20), 1, 3, 0, 0⟩,
   ⟨vec3 (-103/20) (3/2) 2, 1, 5/2, 1, 1⟩,
   ⟨vec3 (103/20) (3/2) (-1), 1, 14/5, 2, 2⟩]

/-- The table positions shared by init and render (main_state.c line 227). -/
def table_positions : List (ℚ × ℚ) := [(-7/2, 1), (-1, 7/2), (3/2, 1/2)]

/-- The table-candle initializers (main_state.c lines 228-238). -/
def table_candles_init : List TableCandle :=
  (List.range num_table_candles).map (fun i =>
    let tp := (table_positions.getD i (0, 0))
    ⟨vec3 tp.1 (7/5) tp.2, vec3 0 0 0, 1, 5/2 + i * (3/10), i * (4/5), num_wall_candles + i⟩)

/-- `static float global_light_radius = 8.0f` (main_state.c line 18). -/
def global_light_radius_init : ℚ := 8

/-- The lights array after main_state_init (main_state.c lines 240-301):
slots 0-2 wall-candle lights, 3-5 table-candle lights, 6 the auto-activated
startup flashlight, slot 7 untouched zero-initialised static storage. -/
def lights_init : List PointLight :=
  ((List.range num_wall_candles).map (fun i =>
    let wc := wall_candles_init.getD i ⟨vec3 0 0 0, 0, 0, 0, 0⟩
    { position := v3_add wc.position (wall_light_offset i)
      color := vec3 1 (3/5) (3/10)
      radius := global_light_radius_init }))
  ++ ((List.range num_table_candles).map (fun i =>
    let tc := table_candles_init.getD i ⟨vec3 0 0 0, vec3 0 0 0, 0, 0, 0, 0⟩
    { position := v3_add tc.base_position (vec3 0 (3/25) 0)
      color := vec3 1 (3/5) (3/10)
      radius := global_light_radius_init }))
  ++ [{ position := v3_add camera_init.position (v3_muls camera_init.front 0)
        color := vec3 1 1 1
        radius := global_light_radius_init },
      default]

/-- main_state_init (main_state.c lines 92-305), restricted to the state
modelled here (GL resource setup, shader/mesh/texture loading are traced
elsewhere or opaque).  num_lights ends at base_num_lights + 1 = 7 because
the flashlight is auto-activated at startup (lines 291-301). -/
def main_state_init : MainState :=
  { camera := camera_init
    mouse := mouse_statics_init
    lights := lights_init
    num_lights := num_wall_candles + num_table_candles + 1
    base_num_lights := num_wall_candles + num_table_candles
    flashlight_active := true
    flashlight_distance := 0
    global_light_radius := global_light_radius_init
    flashlight_only_shadows := true
    wall_candles := wall_candles_init
    table_candles := table_candles_init
    animation_time := 0
    startup_flashlight_timer := 0
    f_key_pressed := false
    q_key_pressed := false
    e_key_pressed := false
    tab_key_pressed := false
    r_key_pressed := false }

/-- scroll_callback (main_state.c lines 71-90): accepted only while the F
key is held and the flashlight is active; moves the flashlight distance in
0.5 steps and clamps it to [-5, 10]. -/
def scroll_callback (s : MainState) (yoffset : ℚ) (fKeyDown : Bool) : MainState :=
  if fKeyDown = true ∧ s.flashlight_active = true then
    let d := if yoffset > 0 then s.flashlight_distance + 1/2
             else if yoffset < 0 then s.flashlight_distance - 1/2
             else s.flashlight_distance
    let d := if d < -5 then (-5 : ℚ) else d
    let d := if d > 10 then (10 : ℚ) else d
    { s with flashlight_distance := d }
  else s

/-- The camera_update call at the top of main_state_update (line 309). -/
def camera_block (ml : CMathLib) (inp : FrameInput) (s : MainState) : MainState :=
  let cm := camera_update ml s.camera s.mouse
    ⟨inp.keyW, inp.keyA, inp.keyS, inp.keyD, inp.xpos, inp.ypos⟩ inp.delta_time
  { s with camera := cm.1, mouse := cm.2 }

/-- `animation_time += delta_time` (line 312). -/
def anim_time_block (inp : FrameInput) (s : MainState) : MainState :=
  { s with animation_time := s.animation_time + inp.delta_time }

/-- The one-shot startup-flashlight timer (main_state.c lines 314-323). -/
def startup_timer_block (inp : FrameInput) (s : MainState) : MainState :=
  if s.flashlight_active = true ∧ 0 ≤ s.startup_flashlight_timer then
    let t := s.startup_flashlight_timer + inp.delta_time
    if t > 1/2 then
      { s with flashlight_active := false
               num_lights := s.base_num_lights
               startup_flashlight_timer := -1 }
    else { s with startup_flashlight_timer := t }
  else s

/-- One iteration of the wall-candle animation loop (lines 326-363). -/
def wall_candle_step (ml : CMathLib) (animation_time : ℚ)
    (st : List WallCandle × List PointLight) (i : ℕ) : List WallCandle × List PointLight :=
  match st.1.getD i ⟨vec3 0 0 0, 0, 0, 0, 0⟩ with
  | c =>
    let phase := animation_time * c.flicker_speed + c.time_offset
    let intensity := 17/20 + (3/20) * ml.sinf phase * ml.sinf (phase * (13/10))
    let flame_flicker := vec3 ((1/200) * ml.sinf (phase * (21/10)))
      ((1/100) * ml.sinf (phase * (17/10))) ((1/200) * ml.sinf (phase * (23/10)))
    let light_offset := wall_light_offset i
    let wcs := st.1.set i { c with intensity := intensity }
    let lights := updateLight st.2 c.light_index (fun L =>
      { L with position := v3_add c.position (v3_add light_offset flame_flicker)
               color := vec3 (intensity * 1) (intensity * (3/5)) (intensity * (3/10)) })
    (wcs, lights)

/-- The wall-candle animation loop (lines 326-363). -/
def wall_anim_block (ml : CMathLib) (s : MainState) : MainState :=
  let p := (List.range num_wall_candles).foldl (wall_candle_step ml s.animation_time)
    (s.wall_candles, s.lights)
  { s with wall_candles := p.1, lights := p.2 }

/-- One iteration of the table-candle animation loop (lines 366-393). -/
def table_candle_step (ml : CMathLib) (animation_time : ℚ)
    (st : List TableCandle × List PointLight) (i : ℕ) : List TableCandle × List PointLight :=
  match st.1.getD i ⟨vec3 0 0 0, vec3 0 0 0, 0, 0, 0, 0⟩ with
  | c =>
    let phase := animation_time * c.flicker_speed + c.time_offset
    let intensity := 17/20 + (3/20) * ml.sinf phase * ml.sinf (phase * (13/10))
    let flame_offset := vec3 ((1/100) * ml.sinf (phase * (21/10)))
      ((1/50) * ml.sinf (phase * (17/10))) ((1/100) * ml.sinf (phase * (23/10)))
    let flame_light_pos := v3_add c.base_position (v3_add flame_offset (vec3 0 (3/25) 0))
    let tcs := st.1.set i { c with intensity := intensity, flame_offset := flame_offset }
    let lights := updateLight st.2 c.light_index (fun L =>
      { L with position := flame_light_pos
               color := vec3 (intensity * 1) (intensity * (3/5)) (intensity * (3/10)) })
    (tcs, lights)

/-- The table-candle animation loop (lines 366-393). -/
def table_anim_block (ml : CMathLib) (s : MainState) : MainState :=
  let p := (List.range num_table_candles).foldl (table_candle_step ml s.animation_time)
    (s.table_candles, s.lights)
  { s with table_candles := p.1, lights := p.2 }

/-- The F-key flashlight handler (main_state.c lines 395-426): F newly
pressed while inactive creates the flashlight light (radius 50) in slot
base_num_lights; releasing F while active turns it off. -/
def f_key_block (inp : FrameInput) (s : MainState) : MainState :=
  if inp.keyF = true then
    if s.f_key_pressed = false then
      let s :=
        if s.flashlight_active = false then
          let fl : PointLight :=
            { position := s.camera.position, color := vec3 1 (9/10) (7/10), radius := 50 }
          { s with lights := s.lights.set s.base_num_lights fl
                   flashlight_active := true
                   num_lights := s.base_num_lights + 1 }
        else s
      { s with f_key_pressed := true }
    else s
  else
    let s :=
      if s.f_key_pressed = true ∧ s.flashlight_active = true then
        { s with flashlight_active := false, num_lights := s.base_num_lights }
      else s
    { s with f_key_pressed := false }

/-- The Q-key radius handler (main_state.c lines 432-448). -/
def q_key_block (inp : FrameInput) (s : MainState) : MainState :=
  if inp.keyQ = true then
    let s :=
      if s.q_key_pressed = false then
        let g := s.global_light_radius - 1
        let g := if g < 1 then (1 : ℚ) else g
        { s with global_light_radius := g
                 lights := setCandleRadii s.lights s.base_num_lights g }
      else s
    { s with q_key_pressed := true }
  else { s with q_key_pressed := false }

/-- The E-key radius handler (main_state.c lines 450-466). -/
def e_key_block (inp : FrameInput) (s : MainState) : MainState :=
  if inp.keyE = true then
    let s :=
      if s.e_key_pressed = false then
        let g := s.global_light_radius + 1
        let g := if g > 20 then (20 : ℚ) else g
        { s with global_light_radius := g
                 lights := setCandleRadii s.lights s.base_num_lights g }
      else s
    { s with e_key_pressed := true }
  else { s with e_key_pressed := false }

/-- The TAB shadow-mode toggle (main_state.c lines 469-483). -/
def tab_key_block (inp : FrameInput) (s : MainState) : MainState :=
  if inp.keyTab = true then
    let s :=
      if s.tab_key_pressed = false then
        { s with flashlight_only_shadows := !s.flashlight_only_shadows }
      else s
    { s with tab_key_pressed := true }
  else { s with tab_key_pressed := false }

/-- The R-key flashlight-distance reset (main_state.c lines 486-496). -/
def r_key_block (inp : FrameInput) (s : MainState) : MainState :=
  if inp.keyR = true then
    let s :=
      if s.r_key_pressed = false ∧ s.flashlight_active = true then
        { s with flashlight_distance := 0 }
      else s
    { s with r_key_pressed := true }
  else { s with r_key_pressed := false }

/-- The flashlight position follow (main_state.c lines 499-502). -/
def flashlight_follow_block (s : MainState) : MainState :=
  if s.flashlight_active = true then
    { s with lights := updateLight s.lights s.base_num_lights (fun L =>
        { L with position :=
            v3_add s.camera.position (v3_muls s.camera.front s.flashlight_distance) }) }
  else s

/-- The state shortly before the R-key handler runs inside
main_state_update (everything of lines 307-483 applied). -/
def pre_r_state (ml : CMathLib) (inp : FrameInput) (s : MainState) : MainState :=
  tab_key_block inp (e_key_block inp (q_key_block inp (f_key_block inp
    (table_anim_block ml (wall_anim_block ml (startup_timer_block inp
      (anim_time_block inp (camera_block ml inp s))))))))

/-- main_state_update (main_state.c lines 307-503), as the sequential
composition of its blocks in source order. -/
def main_state_update (ml : CMathLib) (s : MainState) (inp : FrameInput) : MainState :=
  flashlight_follow_block (r_key_block inp (pre_r_state ml inp s))

/-- A run of the frame-update loop. -/
def main_state_run (ml : CMathLib) (s : MainState) (inputs : List FrameInput) : MainState :=
  inputs.foldl (main_state_update ml) s

/-- An event seen by the application: either a frame update or a scroll
callback invocation (with the F-key state glfwGetKey reports then). -/
inductive AppEvent where
  | frame (inp : FrameInput)
  | scroll (yoffset : ℚ) (fKeyDown : Bool)

/-- A run of the application over frame updates and scroll events. -/
def app_run (ml : CMathLib) (s : MainState) (events : List AppEvent) : MainState :=
  events.foldl (fun s e => match e with
    | AppEvent.frame inp => main_state_update ml s inp
    | AppEvent.scroll y f => scroll_callback s y f) s

/-- The shadow pass at the top of main_state_render (main_state.c lines
689-702): one render_cube_shadow_map call per light index below
num_shadow_lights, which is base_num_lights, or num_lights when the
flashlight is active. -/
def main_state_render_shadow_pass (s : MainState) : List (ℕ × List ShadowEvent) :=
  let num_shadow_lights := if s.flashlight_active = true then s.num_lights else s.base_num_lights
  (List.range num_shadow_lights).map (fun i =>
    (i, render_cube_shadow_map (getLight s.lights i).position))

/-- The value of the flashlightOnlyShadows uniform the lighting pass sends
to the deferred shader (main_state.c lines 1049-1051). -/
def lighting_pass_flashlight_only_uniform (s : MainState) : Bool :=
  s.flashlight_only_shadows

/-- rafgl_texture_t, reduced to its GL texture id. -/
structure Texture where
  tex_id : ℕ
  deriving DecidableEq, Repr

/-- Modelled from the spec: rafgl_texture_init belongs to the rafgl helper
library, which is not part of this repository; it leaves the handle with no
GL texture object (id 0). -/
def rafgl_texture_init : Texture := ⟨0⟩

/-- Material from tavern_renderer.h. -/
structure Material where
  diffuse : Texture
  normal : Texture
  specular : Texture
  has_normal_map : Bool
  has_specular_map : Bool
  roughness : ℚ
  metallic : ℚ
  deriving DecidableEq, Repr

/-- material_init (main_state.c lines 1080-1088). -/
def material_init : Material :=
  { diffuse := rafgl_texture_init
    normal := rafgl_texture_init
    specular := rafgl_texture_init
    has_normal_map := false
    has_specular_map := false
    roughness := 4/5
    metallic := 0 }

/-- The printf diagnostics of the material loaders. -/
inductive LoadLog where
  | loadSuccess (path : String)
  | loadFailure (path : String)
  deriving DecidableEq, Repr

/-- material_load_diffuse (main_state.c lines 1090-1099).  `loadResult`
models the outcome of rafgl_raster_load_from_image together with the id
glGenTextures hands out on success (the rafgl loader reads the filesystem
and is external to this repository).  On failure the material is returned
unchanged: in particular no flag distinguishes a failed diffuse load. -/
def material_load_diffuse (mat : Material) (path : String) (loadResult : Option ℕ) :
    Material × List LoadLog :=
  match loadResult with
  | some tex => ({ mat with diffuse := ⟨tex⟩ }, [LoadLog.loadSuccess path])
  | none => (mat, [LoadLog.loadFailure path])

/-- material_load_normal (main_state.c lines 1101-1112): sets
has_normal_map on success and clears it on failure. -/
def material_load_normal (mat : Material) (path : String) (loadResult : Option ℕ) :
    Material × List LoadLog :=
  match loadResult with
  | some tex =>
    ({ mat with normal := ⟨tex⟩, has_normal_map := true }, [LoadLog.loadSuccess path])
  | none => ({ mat with has_normal_map := false }, [LoadLog.loadFailure path])

/-- material_load_specular (main_state.c lines 1114-1125). -/
def material_load_specular (mat : Material) (path : String) (loadResult : Option ℕ) :
    Material × List LoadLog :=
  match loadResult with
  | some tex =>
    ({ mat with specular := ⟨tex⟩, has_specular_map := true }, [LoadLog.loadSuccess path])
  | none => ({ mat with has_specular_map := false }, [LoadLog.loadFailure path])

/-- GL calls issued by material_bind. -/
inductive BindEvent where
  | bindDiffuseTexture (tex_id : ℕ)
  | uniformTextureDiffuse (unit : ℕ)
  | bindNormalTexture (tex_id : ℕ)
  | uniformTextureNormal (unit : ℕ)
  | uniformHasNormalMap (v : ℚ)
  | bindSpecularTexture (tex_id : ℕ)
  | uniformTextureSpecular (unit : ℕ)
  | uniformRoughness (v : ℚ)
  | uniformMetallic (v : ℚ)
  | uniformHasTexture (v : ℚ)
  deriving DecidableEq, Repr

/-- material_bind (main_state.c lines 1127-1156): always binds the diffuse
texture id and unconditionally ends by setting the hasTexture uniform to
1.0; the gbuffer shader's untextured flat-color path is selected by
hasTexture = 0.0 (set by the callers for flat-colored geometry, e.g.
lines 717-732). -/
def material_bind (mat : Material) : List BindEvent :=
  [BindEvent.bindDiffuseTexture mat.diffuse.tex_id, BindEvent.uniformTextureDiffuse 5]
  ++ (if mat.has_normal_map = true then
        [BindEvent.bindNormalTexture mat.normal.tex_id,
         BindEvent.uniformTextureNormal 6,
         BindEvent.uniformHasNormalMap 1]
      else [BindEvent.uniformHasNormalMap 0])
  ++ (if mat.has_specular_map = true then
        [BindEvent.bindSpecularTexture mat.specular.tex_id,
         BindEvent.uniformTextureSpecular 7]
      else [])
  ++ [BindEvent.uniformRoughness mat.roughness,
      BindEvent.uniformMetallic mat.metallic,
      BindEvent.uniformHasTexture 1]

/-- A concrete interpretation of the external math routines, used when a
statement has to be evaluated at a closed input (the claims hold for every
interpretation). -/
def mlZero : CMathLib := ⟨fun _ => 0, fun _ => 0, fun _ => vec3 0 0 0⟩

/-- A frame input that only sets the F key and the delta time. -/
def mkF (keyF : Bool) (d : ℚ) : FrameInput :=
  ⟨d, false, false, false, false, keyF, false, false, false, false, 0, 0⟩

/-- A frame input with no key pressed (only time passes). -/
def mkIdle (d : ℚ) : FrameInput := mkF false d

/-- The flashlight-related control state of main_state.c: the
flashlight_active flag, num_lights, the f_key_pressed latch and the
startup timer. -/
structure FlashCtrl where
  active : Bool
  num : ℕ
  fkey : Bool
  timer : ℚ
  deriving DecidableEq, Repr

/-- Projection of the modelled state onto its flashlight control part. -/
def flashCtrlOf (s : MainState) : FlashCtrl :=
  ⟨s.flashlight_active, s.num_lights, s.f_key_pressed, s.startup_flashlight_timer⟩

/-- How the startup-timer block (lines 314-323) transforms the flashlight
control state. -/
def flashTimerStep (base : ℕ) (c : FlashCtrl) (d : ℚ) : FlashCtrl :=
  if c.active = true ∧ 0 ≤ c.timer then
    (if c.timer + d > 1/2 then (⟨false, base, c.fkey, -1⟩ : FlashCtrl)
     else ⟨c.active, c.num, c.fkey, c.timer + d⟩)
  else c

/-- How the F-key handler (lines 395-426) transforms the flashlight control
state. -/
def flashKeyStep (base : ℕ) (c : FlashCtrl) (keyF : Bool) : FlashCtrl :=
  if keyF = true then
    if c.fkey = false then
      (if c.active = false then (⟨true, base + 1, true, c.timer⟩ : FlashCtrl)
       else ⟨c.active, c.num, true, c.timer⟩)
    else c
  else
    if c.fkey = true ∧ c.active = true then (⟨false, base, false, c.timer⟩ : FlashCtrl)
    else ⟨c.active, c.num, false, c.timer⟩

/-- How one main_state_update transforms the flashlight control state:
first the startup-timer block, then the F-key handler.  No other statement
of main_state_update touches these four variables. -/
def flashCtrlStep (base : ℕ) (c : FlashCtrl) (keyF : Bool) (d : ℚ) : FlashCtrl :=
  flashKeyStep base (flashTimerStep base c d) keyF

/-- The state after `k` input-free frames of total durations `dts`,
starting from the freshly initialised program. -/
def idle_state_after (ml : CMathLib) (dts : List ℚ) (k : ℕ) : MainState :=
  main_state_run ml main_state_init ((dts.take k).map mkIdle)

/-- The startup flashlight is auto-deactivated during frame `k` of an
input-free run: it is active going into the frame and inactive after it. -/
def deactivates_at (ml : CMathLib) (dts : List ℚ) (k : ℕ) : Prop :=
  (idle_state_after ml dts k).flashlight_active = true ∧
  (idle_state_after ml dts (k + 1)).flashlight_active = false

/-- The Q-key adjustment of the global light radius (main_state.c lines
434-437): subtract 1, clamp below at 1; applied only when Q is newly
pressed. -/
def q_adjust (keyQ qLatch : Bool) (g : ℚ) : ℚ :=
  if keyQ = true ∧ qLatch = false then (if g - 1 < 1 then (1 : ℚ) else g - 1) else g

/-- The E-key adjustment of the global light radius (main_state.c lines
452-455): add 1, clamp above at 20; applied only when E is newly
pressed. -/
def e_adjust (keyE eLatch : Bool) (g : ℚ) : ℚ :=
  if keyE = true ∧ eLatch = false then (if g + 1 > 20 then (20 : ℚ) else g + 1) else g

/-- The flashlight-distance clamp of scroll_callback (main_state.c lines
82-86): clamp to [-5, 10]. -/
def clamp_distance (v : ℚ) : ℚ :=
  if v < -5 then (-5 : ℚ) else if v > 10 then (10 : ℚ) else v

/-- The distance change of one scroll event (main_state.c lines 76-80):
+0.5 for scroll up, -0.5 for scroll down, 0 for a zero offset. -/
def scroll_step_amount (y : ℚ) : ℚ :=
  if y > 0 then (1/2 : ℚ) else if y < 0 then (-(1/2) : ℚ) else 0

/-- C1: for every point light position, the forward (look) direction of
the face-`i` view matrix — the target minus the light position — is exactly
the canonical cube-map axis for face `i` in the order +X, -X, +Y, -Y, +Z,
-Z, and the fixed up vector of face `i` is not parallel to it: the cross
product in the look-at construction is nonzero, hence never degenerate. -/
theorem spec_c1_cube_face_directions : ∀ (lightPos : Vec3) (i : Fin 6),
    v3_sub (v3_add lightPos (directions i)) lightPos = canonical_face_axis i ∧
    v3_cross (directions i) (ups i) ≠ vec3 0 0 0 := by
  intro p i
  constructor
  · fin_cases i <;>
      simp only [v3_sub, v3_add, directions, canonical_face_axis, vec3, Vec3.mk.injEq] <;>
      refine ⟨by ring, by ring, by ring⟩
  · fin_cases i <;> norm_num [directions, ups, v3_cross, vec3, Vec3.mk.injEq]

/-- C7: gbuffer_init records the requested dimensions in the GBuffer struct
and allocates exactly the three color render targets (attachments 0, 1, 2:
position, normal, albedo+specular) plus one depth target, each at exactly
width x height. -/
theorem spec_c7_gbuffer_allocation : ∀ width height : ℤ,
    (gbuffer_init width height).1.width = width ∧
    (gbuffer_init width height).1.height = height ∧
    colorAllocs (gbuffer_init width height).2 =
      [(0, width, height), (1, width, height), (2, width, height)] ∧
    depthAllocs (gbuffer_init width height).2 = [(width, height)] := by
  intro w h
  exact ⟨rfl, rfl, rfl, rfl⟩

/-- C2: one render_cube_shadow_map call renders the scene exactly six
times; restricted to face attachments and scene renders, the trace is
exactly attach-face-0, render, ..., attach-face-5, render — so face i is
attached as the depth target before the i-th scene render — using a
perspective projection with a 90-degree field of view and aspect ratio 1;
and the per-frame shadow pass makes one such call for each active light. -/
theorem spec_c2_shadow_pass_six_renders :
    (∀ p : Vec3,
      (render_cube_shadow_map p).count ShadowEvent.renderScene = 6 ∧
      (render_cube_shadow_map p).filter isFaceOrRender =
        [ShadowEvent.attachCubeFace 0, ShadowEvent.renderScene,
         ShadowEvent.attachCubeFace 1, ShadowEvent.renderScene,
         ShadowEvent.attachCubeFace 2, ShadowEvent.renderScene,
         ShadowEvent.attachCubeFace 3, ShadowEvent.renderScene,
         ShadowEvent.attachCubeFace 4, ShadowEvent.renderScene,
         ShadowEvent.attachCubeFace 5, ShadowEvent.renderScene] ∧
      ShadowEvent.setLightProjection 90 1 (1/10) 25 ∈ render_cube_shadow_map p) ∧
    (∀ s : MainState,
      (main_state_render_shadow_pass s).map Prod.fst =
        List.range (if s.flashlight_active = true then s.num_lights else s.base_num_lights) ∧
      ∀ pr ∈ main_state_render_shadow_pass s,
        pr.2 = render_cube_shadow_map (getLight s.lights pr.1).position) := by
  constructor
  · intro p
    refine ⟨rfl, rfl, ?_⟩
    simp [render_cube_shadow_map]
  · intro s
    constructor
    · simp [main_state_render_shadow_pass, List.map_map, Function.comp_def]
    · intro pr hpr
      simp only [main_state_render_shadow_pass, List.mem_map, List.mem_range] at hpr
      obtain ⟨i, _, rfl⟩ := hpr
      rfl

lemma updated_pitch_bounds (p y : ℚ) :
    -89 ≤ updated_pitch p y ∧ updated_pitch p y ≤ 89 := by
  unfold updated_pitch
  dsimp only
  split_ifs <;> constructor <;> linarith

lemma camera_update_pitch_bounds (ml : CMathLib) (cam : Camera) (ms : MouseStatics)
    (inp : CameraInput) (d : ℚ) :
    -89 ≤ (camera_update ml cam ms inp d).1.pitch ∧
    (camera_update ml cam ms inp d).1.pitch ≤ 89 :=
  updated_pitch_bounds _ _

/-- C3: after every camera_update of every update sequence, whatever the
magnitude of the mouse offsets (cursor positions are arbitrary rationals),
the camera's pitch lies in [-89, 89]. -/
theorem spec_c3_pitch_clamped : ∀ (ml : CMathLib) (st : Camera × MouseStatics)
    (pre : List (CameraInput × ℚ)) (f : CameraInput × ℚ),
    -89 ≤ (camera_run ml st (pre ++ [f])).1.pitch ∧
    (camera_run ml st (pre ++ [f])).1.pitch ≤ 89 := by
  intro ml st pre f
  unfold camera_run
  rw [List.foldl_append]
  exact camera_update_pitch_bounds ml _ _ f.1 f.2

/-- C5 counterexample: right after initialization flashlight_only_shadows
is enabled, yet the shadow pass renders a shadow cube map for every one of
the seven active lights (indices 0-5 are the candles, 6 the flashlight),
not for the flashlight alone. -/
theorem spec_c5_counterexample :
    main_state_init.flashlight_only_shadows = true ∧
    (main_state_render_shadow_pass main_state_init).map Prod.fst = [0, 1, 2, 3, 4, 5, 6] ∧
    (main_state_render_shadow_pass main_state_init).map Prod.fst ≠ [6] := by
  refine ⟨rfl, ?_, ?_⟩ <;> decide

/-- C5 amended: the flashlight_only_shadows toggle does not restrict the
shadow pass, which renders a shadow cube map for every active light
(candles included) regardless of the toggle; the restriction is delegated
to the lighting shader, to which the toggle is forwarded as the
flashlightOnlyShadows uniform. -/
theorem spec_c5_amended : ∀ (s : MainState) (b : Bool),
    main_state_render_shadow_pass { s with flashlight_only_shadows := b } =
      main_state_render_shadow_pass s ∧
    (main_state_render_shadow_pass s).map Prod.fst =
      List.range (if s.flashlight_active = true then s.num_lights else s.base_num_lights) ∧
    lighting_pass_flashlight_only_uniform s = s.flashlight_only_shadows := by
  intro s b
  refine ⟨rfl, ?_, rfl⟩
  simp [main_state_render_shadow_pass, List.map_map, Function.comp_def]

/-- C8 counterexample: when loading the diffuse texture fails, a diagnostic
line is printed, but the material is not left in an untextured state:
material_bind still sets the hasTexture uniform to 1.0 (textured) and never
to 0.0, so the material does not render through the flat-fallback-color
path (which the renderer selects with hasTexture = 0.0). -/
theorem spec_c8_counterexample :
    LoadLog.loadFailure ("res/textures/wooden_barrel_shaded.png") ∈
      (material_load_diffuse material_init ("res/textures/wooden_barrel_shaded.png") none).2 ∧
    BindEvent.uniformHasTexture 1 ∈
      material_bind (material_load_diffuse material_init
        ("res/textures/wooden_barrel_shaded.png") none).1 ∧
    BindEvent.uniformHasTexture 0 ∉
      material_bind (material_load_diffuse material_init
        ("res/textures/wooden_barrel_shaded.png") none).1 := by
  refine ⟨?_, ?_, ?_⟩ <;> simp [material_load_diffuse, material_bind, material_init,
    rafgl_texture_init]

/-- C8 amended: whenever loading a texture image file fails, the loader
prints a diagnostic line and returns (the frame loop continues), leaving
the texture object uncreated; for normal (and specular) maps the
corresponding has-flag is cleared so binding skips them, but a material
whose diffuse load failed is still bound as textured: material_bind
unconditionally sets the hasTexture uniform to 1.0, so the material samples
the default texture object instead of rendering with a flat fallback
color. -/
theorem spec_c8_amended : ∀ (mat : Material) (path : String),
    (material_load_diffuse mat path none).1 = mat ∧
    (material_load_diffuse mat path none).2 = [LoadLog.loadFailure path] ∧
    BindEvent.uniformHasTexture 1 ∈ material_bind (material_load_diffuse mat path none).1 ∧
    BindEvent.uniformHasTexture 0 ∉ material_bind (material_load_diffuse mat path none).1 ∧
    (material_load_normal mat path none).1.has_normal_map = false ∧
    (material_load_normal mat path none).2 = [LoadLog.loadFailure path] ∧
    BindEvent.uniformHasNormalMap 0 ∈ material_bind (material_load_normal mat path none).1 ∧
    (material_load_specular mat path none).1.has_specular_map = false := by
  intro mat path
  refine ⟨rfl, rfl, ?_, ?_, rfl, rfl, ?_, rfl⟩ <;>
    · simp [material_bind, material_load_diffuse, material_load_normal]
      try split_ifs <;> simp

section BlockLemmas

variable (ml : CMathLib) (inp : FrameInput) (s : MainState)

lemma camera_block_ctrl : flashCtrlOf (camera_block ml inp s) = flashCtrlOf s := rfl

lemma camera_block_base : (camera_block ml inp s).base_num_lights = s.base_num_lights := rfl

lemma camera_block_lights : (camera_block ml inp s).lights = s.lights := rfl

lemma camera_block_gr : (camera_block ml inp s).global_light_radius = s.global_light_radius := rfl

lemma camera_block_fd : (camera_block ml inp s).flashlight_distance = s.flashlight_distance := rfl

lemma camera_block_fo :
    (camera_block ml inp s).flashlight_only_shadows = s.flashlight_only_shadows := rfl

lemma camera_block_qk : (camera_block ml inp s).q_key_pressed = s.q_key_pressed := rfl

lemma camera_block_ek : (camera_block ml inp s).e_key_pressed = s.e_key_pressed := rfl

lemma camera_block_tk : (camera_block ml inp s).tab_key_pressed = s.tab_key_pressed := rfl

lemma camera_block_rk : (camera_block ml inp s).r_key_pressed = s.r_key_pressed := rfl

lemma anim_time_block_ctrl : flashCtrlOf (anim_time_block inp s) = flashCtrlOf s := rfl

lemma anim_time_block_base : (anim_time_block inp s).base_num_lights = s.base_num_lights := rfl

lemma anim_time_block_lights : (anim_time_block inp s).lights = s.lights := rfl

lemma anim_time_block_gr :
    (anim_time_block inp s).global_light_radius = s.global_light_radius := rfl

lemma anim_time_block_fd :
    (anim_time_block inp s).flashlight_distance = s.flashlight_distance := rfl

lemma anim_time_block_fo :
    (anim_time_block inp s).flashlight_only_shadows = s.flashlight_only_shadows := rfl

lemma anim_time_block_qk : (anim_time_block inp s).q_key_pressed = s.q_key_pressed := rfl

lemma anim_time_block_ek : (anim_time_block inp s).e_key_pressed = s.e_key_pressed := rfl

lemma anim_time_block_tk : (anim_time_block inp s).tab_key_pressed = s.tab_key_pressed := rfl

lemma anim_time_block_rk : (anim_time_block inp s).r_key_pressed = s.r_key_pressed := rfl

lemma startup_timer_block_ctrl :
    flashCtrlOf (startup_timer_block inp s) =
      flashTimerStep s.base_num_lights (flashCtrlOf s) inp.delta_time := by
  unfold startup_timer_block flashTimerStep flashCtrlOf
  dsimp only
  split_ifs <;> rfl

lemma startup_timer_block_base :
    (startup_timer_block inp s).base_num_lights = s.base_num_lights := by
  unfold startup_timer_block; (try dsimp only); split_ifs <;> rfl

lemma startup_timer_block_lights : (startup_timer_block inp s).lights = s.lights := by
  unfold startup_timer_block; (try dsimp only); split_ifs <;> rfl

lemma startup_timer_block_gr :
    (startup_timer_block inp s).global_light_radius = s.global_light_radius := by
  unfold startup_timer_block; (try dsimp only); split_ifs <;> rfl

lemma startup_timer_block_fd :
    (startup_timer_block inp s).flashlight_distance = s.flashlight_distance := by
  unfold startup_timer_block; (try dsimp only); split_ifs <;> rfl

lemma startup_timer_block_fo :
    (startup_timer_block inp s).flashlight_only_shadows = s.flashlight_only_shadows := by
  unfold startup_timer_block; (try dsimp only); split_ifs <;> rfl

lemma startup_timer_block_qk : (startup_timer_block inp s).q_key_pressed = s.q_key_pressed := by
  unfold startup_timer_block; (try dsimp only); split_ifs <;> rfl

lemma startup_timer_block_ek : (startup_timer_block inp s).e_key_pressed = s.e_key_pressed := by
  unfold startup_timer_block; (try dsimp only); split_ifs <;> rfl

lemma startup_timer_block_tk :
    (startup_timer_block inp s).tab_key_pressed = s.tab_key_pressed := by
  unfold startup_timer_block; (try dsimp only); split_ifs <;> rfl

lemma startup_timer_block_rk : (startup_timer_block inp s).r_key_pressed = s.r_key_pressed := by
  unfold startup_timer_block; (try dsimp only); split_ifs <;> rfl

lemma wall_anim_block_ctrl : flashCtrlOf (wall_anim_block ml s) = flashCtrlOf s := rfl

lemma wall_anim_block_base : (wall_anim_block ml s).base_num_lights = s.base_num_lights := rfl

lemma wall_anim_block_gr : (wall_anim_block ml s).global_light_radius = s.global_light_radius := rfl

lemma wall_anim_block_fd : (wall_anim_block ml s).flashlight_distance = s.flashlight_distance := rfl

lemma wall_anim_block_fo :
    (wall_anim_block ml s).flashlight_only_shadows = s.flashlight_only_shadows := rfl

lemma wall_anim_block_qk : (wall_anim_block ml s).q_key_pressed = s.q_key_pressed := rfl

lemma wall_anim_block_ek : (wall_anim_block ml s).e_key_pressed = s.e_key_pressed := rfl

lemma wall_anim_block_tk : (wall_anim_block ml s).tab_key_pressed = s.tab_key_pressed := rfl

lemma wall_anim_block_rk : (wall_anim_block ml s).r_key_pressed = s.r_key_pressed := rfl

lemma table_anim_block_ctrl : flashCtrlOf (table_anim_block ml s) = flashCtrlOf s := rfl

lemma table_anim_block_base : (table_anim_block ml s).base_num_lights = s.base_num_lights := rfl

lemma table_anim_block_gr :
    (table_anim_block ml s).global_light_radius = s.global_light_radius := rfl

lemma table_anim_block_fd :
    (table_anim_block ml s).flashlight_distance = s.flashlight_distance := rfl

lemma table_anim_block_fo :
    (table_anim_block ml s).flashlight_only_shadows = s.flashlight_only_shadows := rfl

lemma table_anim_block_qk : (table_anim_block ml s).q_key_pressed = s.q_key_pressed := rfl

lemma table_anim_block_ek : (table_anim_block ml s).e_key_pressed = s.e_key_pressed := rfl

lemma table_anim_block_tk : (table_anim_block ml s).tab_key_pressed = s.tab_key_pressed := rfl

lemma table_anim_block_rk : (table_anim_block ml s).r_key_pressed = s.r_key_pressed := rfl

lemma f_key_block_ctrl :
    flashCtrlOf (f_key_block inp s) = flashKeyStep s.base_num_lights (flashCtrlOf s) inp.keyF := by
  unfold f_key_block flashKeyStep flashCtrlOf
  dsimp only
  split_ifs <;> rfl

lemma f_key_block_base : (f_key_block inp s).base_num_lights = s.base_num_lights := by
  unfold f_key_block; (try dsimp only); split_ifs <;> rfl

lemma f_key_block_gr : (f_key_block inp s).global_light_radius = s.global_light_radius := by
  unfold f_key_block; (try dsimp only); split_ifs <;> rfl

lemma f_key_block_fd : (f_key_block inp s).flashlight_distance = s.flashlight_distance := by
  unfold f_key_block; (try dsimp only); split_ifs <;> rfl

lemma f_key_block_fo :
    (f_key_block inp s).flashlight_only_shadows = s.flashlight_only_shadows := by
  unfold f_key_block; (try dsimp only); split_ifs <;> rfl

lemma f_key_block_qk : (f_key_block inp s).q_key_pressed = s.q_key_pressed := by
  unfold f_key_block; (try dsimp only); split_ifs <;> rfl

lemma f_key_block_ek : (f_key_block inp s).e_key_pressed = s.e_key_pressed := by
  unfold f_key_block; (try dsimp only); split_ifs <;> rfl

lemma f_key_block_tk : (f_key_block inp s).tab_key_pressed = s.tab_key_pressed := by
  unfold f_key_block; (try dsimp only); split_ifs <;> rfl

lemma f_key_block_rk : (f_key_block inp s).r_key_pressed = s.r_key_pressed := by
  unfold f_key_block; (try dsimp only); split_ifs <;> rfl

lemma f_key_block_lights :
    (f_key_block inp s).lights = s.lights ∨
    (f_key_block inp s).lights =
      s.lights.set s.base_num_lights
        { position := s.camera.position, color := vec3 1 (9/10) (7/10), radius := 50 } := by
  unfold f_key_block
  dsimp only
  split_ifs <;> simp

lemma q_key_block_gr :
    (q_key_block inp s).global_light_radius =
      if inp.keyQ = true ∧ s.q_key_pressed = false then
        (if s.global_light_radius - 1 < 1 then (1 : ℚ) else s.global_light_radius - 1)
      else s.global_light_radius := by
  unfold q_key_block
  dsimp only
  split_ifs <;> first | rfl | simp_all

lemma q_key_block_lights :
    (q_key_block inp s).lights =
      if inp.keyQ = true ∧ s.q_key_pressed = false then
        setCandleRadii s.lights s.base_num_lights
          (if s.global_light_radius - 1 < 1 then (1 : ℚ) else s.global_light_radius - 1)
      else s.lights := by
  unfold q_key_block
  dsimp only
  split_ifs <;> first | rfl | simp_all

lemma q_key_block_ctrl : flashCtrlOf (q_key_block inp s) = flashCtrlOf s := by
  unfold q_key_block; (try dsimp only); split_ifs <;> rfl

lemma q_key_block_base : (q_key_block inp s).base_num_lights = s.base_num_lights := by
  unfold q_key_block; (try dsimp only); split_ifs <;> rfl

lemma q_key_block_fd : (q_key_block inp s).flashlight_distance = s.flashlight_distance := by
  unfold q_key_block; (try dsimp only); split_ifs <;> rfl

lemma q_key_block_fo :
    (q_key_block inp s).flashlight_only_shadows = s.flashlight_only_shadows := by
  unfold q_key_block; (try dsimp only); split_ifs <;> rfl

lemma q_key_block_ek : (q_key_block inp s).e_key_pressed = s.e_key_pressed := by
  unfold q_key_block; (try dsimp only); split_ifs <;> rfl

lemma q_key_block_tk : (q_key_block inp s).tab_key_pressed = s.tab_key_pressed := by
  unfold q_key_block; (try dsimp only); split_ifs <;> rfl

lemma q_key_block_rk : (q_key_block inp s).r_key_pressed = s.r_key_pressed := by
  unfold q_key_block; (try dsimp only); split_ifs <;> rfl

lemma e_key_block_gr :
    (e_key_block inp s).global_light_radius =
      if inp.keyE = true ∧ s.e_key_pressed = false then
        (if s.global_light_radius + 1 > 20 then (20 : ℚ) else s.global_light_radius + 1)
      else s.global_light_radius := by
  unfold e_key_block
  dsimp only
  split_ifs <;> first | rfl | simp_all

lemma e_key_block_lights :
    (e_key_block inp s).lights =
      if inp.keyE = true ∧ s.e_key_pressed = false then
        setCandleRadii s.lights s.base_num_lights
          (if s.global_light_radius + 1 > 20 then (20 : ℚ) else s.global_light_radius + 1)
      else s.lights := by
  unfold e_key_block
  dsimp only
  split_ifs <;> first | rfl | simp_all

lemma e_key_block_ctrl : flashCtrlOf (e_key_block inp s) = flashCtrlOf s := by
  unfold e_key_block; (try dsimp only); split_ifs <;> rfl

lemma e_key_block_base : (e_key_block inp s).base_num_lights = s.base_num_lights := by
  unfold e_key_block; (try dsimp only); split_ifs <;> rfl

lemma e_key_block_fd : (e_key_block inp s).flashlight_distance = s.flashlight_distance := by
  unfold e_key_block; (try dsimp only); split_ifs <;> rfl

lemma e_key_block_fo :
    (e_key_block inp s).flashlight_only_shadows = s.flashlight_only_shadows := by
  unfold e_key_block; (try dsimp only); split_ifs <;> rfl

lemma e_key_block_qk : (e_key_block inp s).q_key_pressed = s.q_key_pressed := by
  unfold e_key_block; (try dsimp only); split_ifs <;> rfl

lemma e_key_block_tk : (e_key_block inp s).tab_key_pressed = s.tab_key_pressed := by
  unfold e_key_block; (try dsimp only); split_ifs <;> rfl

lemma e_key_block_rk : (e_key_block inp s).r_key_pressed = s.r_key_pressed := by
  unfold e_key_block; (try dsimp only); split_ifs <;> rfl

lemma tab_key_block_fo :
    (tab_key_block inp s).flashlight_only_shadows =
      if inp.keyTab = true ∧ s.tab_key_pressed = false then !s.flashlight_only_shadows
      else s.flashlight_only_shadows := by
  unfold tab_key_block
  dsimp only
  split_ifs <;> first | rfl | simp_all

lemma tab_key_block_ctrl : flashCtrlOf (tab_key_block inp s) = flashCtrlOf s := by
  unfold tab_key_block; (try dsimp only); split_ifs <;> rfl

lemma tab_key_block_base : (tab_key_block inp s).base_num_lights = s.base_num_lights := by
  unfold tab_key_block; (try dsimp only); split_ifs <;> rfl

lemma tab_key_block_lights : (tab_key_block inp s).lights = s.lights := by
  unfold tab_key_block; (try dsimp only); split_ifs <;> rfl

lemma tab_key_block_gr : (tab_key_block inp s).global_light_radius = s.global_light_radius := by
  unfold tab_key_block; (try dsimp only); split_ifs <;> rfl

lemma tab_key_block_fd : (tab_key_block inp s).flashlight_distance = s.flashlight_distance := by
  unfold tab_key_block; (try dsimp only); split_ifs <;> rfl

lemma tab_key_block_rk : (tab_key_block inp s).r_key_pressed = s.r_key_pressed := by
  unfold tab_key_block; (try dsimp only); split_ifs <;> rfl

lemma r_key_block_fd :
    (r_key_block inp s).flashlight_distance =
      if inp.keyR = true ∧ s.r_key_pressed = false ∧ s.flashlight_active = true then 0
      else s.flashlight_distance := by
  unfold r_key_block
  dsimp only
  split_ifs <;> first | rfl | simp_all

lemma r_key_block_ctrl : flashCtrlOf (r_key_block inp s) = flashCtrlOf s := by
  unfold r_key_block; (try dsimp only); split_ifs <;> rfl

lemma r_key_block_base : (r_key_block inp s).base_num_lights = s.base_num_lights := by
  unfold r_key_block; (try dsimp only); split_ifs <;> rfl

lemma r_key_block_lights : (r_key_block inp s).lights = s.lights := by
  unfold r_key_block; (try dsimp only); split_ifs <;> rfl

lemma r_key_block_gr : (r_key_block inp s).global_light_radius = s.global_light_radius := by
  unfold r_key_block; (try dsimp only); split_ifs <;> rfl

lemma r_key_block_fo :
    (r_key_block inp s).flashlight_only_shadows = s.flashlight_only_shadows := by
  unfold r_key_block; (try dsimp only); split_ifs <;> rfl

lemma flashlight_follow_block_ctrl :
    flashCtrlOf (flashlight_follow_block s) = flashCtrlOf s := by
  unfold flashlight_follow_block; split_ifs <;> rfl

lemma flashlight_follow_block_base :
    (flashlight_follow_block s).base_num_lights = s.base_num_lights := by
  unfold flashlight_follow_block; split_ifs <;> rfl

lemma flashlight_follow_block_gr :
    (flashlight_follow_block s).global_light_radius = s.global_light_radius := by
  unfold flashlight_follow_block; split_ifs <;> rfl

lemma flashlight_follow_block_fd :
    (flashlight_follow_block s).flashlight_distance = s.flashlight_distance := by
  unfold flashlight_follow_block; split_ifs <;> rfl

lemma flashlight_follow_block_fo :
    (flashlight_follow_block s).flashlight_only_shadows = s.flashlight_only_shadows := by
  unfold flashlight_follow_block; split_ifs <;> rfl

end BlockLemmas

lemma main_update_ctrl (ml : CMathLib) (s : MainState) (inp : FrameInput) :
    flashCtrlOf (main_state_update ml s inp) =
      flashCtrlStep s.base_num_lights (flashCtrlOf s) inp.keyF inp.delta_time := by
  unfold main_state_update pre_r_state flashCtrlStep
  rw [flashlight_follow_block_ctrl, r_key_block_ctrl, tab_key_block_ctrl, e_key_block_ctrl,
    q_key_block_ctrl, f_key_block_ctrl, table_anim_block_ctrl, wall_anim_block_ctrl,
    startup_timer_block_ctrl, table_anim_block_base, wall_anim_block_base,
    startup_timer_block_base, anim_time_block_base, camera_block_base,
    anim_time_block_ctrl, camera_block_ctrl]

lemma main_update_base (ml : CMathLib) (s : MainState) (inp : FrameInput) :
    (main_state_update ml s inp).base_num_lights = s.base_num_lights := by
  unfold main_state_update pre_r_state
  rw [flashlight_follow_block_base, r_key_block_base, tab_key_block_base, e_key_block_base,
    q_key_block_base, f_key_block_base, table_anim_block_base, wall_anim_block_base,
    startup_timer_block_base, anim_time_block_base, camera_block_base]

lemma main_update_fo (ml : CMathLib) (s : MainState) (inp : FrameInput) :
    (main_state_update ml s inp).flashlight_only_shadows =
      (if inp.keyTab = true ∧ s.tab_key_pressed = false then !s.flashlight_only_shadows
       else s.flashlight_only_shadows) := by
  unfold main_state_update pre_r_state
  rw [flashlight_follow_block_fo, r_key_block_fo, tab_key_block_fo, e_key_block_tk,
    q_key_block_tk, f_key_block_tk, table_anim_block_tk, wall_anim_block_tk,
    startup_timer_block_tk, anim_time_block_tk, camera_block_tk, e_key_block_fo,
    q_key_block_fo, f_key_block_fo, table_anim_block_fo, wall_anim_block_fo,
    startup_timer_block_fo, anim_time_block_fo, camera_block_fo]

lemma main_update_fd (ml : CMathLib) (s : MainState) (inp : FrameInput) :
    (main_state_update ml s inp).flashlight_distance =
      (if inp.keyR = true ∧ s.r_key_pressed = false ∧
          (pre_r_state ml inp s).flashlight_active = true then 0
       else s.flashlight_distance) := by
  unfold main_state_update
  rw [flashlight_follow_block_fd, r_key_block_fd]
  have hrk : (pre_r_state ml inp s).r_key_pressed = s.r_key_pressed := by
    unfold pre_r_state
    rw [tab_key_block_rk, e_key_block_rk, q_key_block_rk, f_key_block_rk, table_anim_block_rk,
      wall_anim_block_rk, startup_timer_block_rk, anim_time_block_rk, camera_block_rk]
  have hfd : (pre_r_state ml inp s).flashlight_distance = s.flashlight_distance := by
    unfold pre_r_state
    rw [tab_key_block_fd, e_key_block_fd, q_key_block_fd, f_key_block_fd, table_anim_block_fd,
      wall_anim_block_fd, startup_timer_block_fd, anim_time_block_fd, camera_block_fd]
  rw [hrk, hfd]

lemma main_update_gr (ml : CMathLib) (s : MainState) (inp : FrameInput) :
    (main_state_update ml s inp).global_light_radius =
      e_adjust inp.keyE s.e_key_pressed (q_adjust inp.keyQ s.q_key_pressed s.global_light_radius) := by
  unfold main_state_update pre_r_state
  rw [flashlight_follow_block_gr, r_key_block_gr, tab_key_block_gr, e_key_block_gr,
    q_key_block_ek, f_key_block_ek, table_anim_block_ek, wall_anim_block_ek,
    startup_timer_block_ek, anim_time_block_ek, camera_block_ek,
    q_key_block_gr, f_key_block_qk, table_anim_block_qk, wall_anim_block_qk,
    startup_timer_block_qk, anim_time_block_qk, camera_block_qk,
    f_key_block_gr, table_anim_block_gr, wall_anim_block_gr,
    startup_timer_block_gr, anim_time_block_gr, camera_block_gr]
  rfl

lemma updateLight_length (l : List PointLight) (i : ℕ) (f : PointLight → PointLight) :
    (updateLight l i f).length = l.length := by
  induction l generalizing i with
  | nil => rfl
  | cons L rest ih =>
    cases i with
    | zero => rfl
    | succ n => simpa [updateLight] using ih n

lemma updateLight_map_radius (l : List PointLight) (i : ℕ) (f : PointLight → PointLight)
    (h : ∀ L, (f L).radius = L.radius) :
    (updateLight l i f).map PointLight.radius = l.map PointLight.radius := by
  induction l generalizing i with
  | nil => rfl
  | cons L rest ih =>
    cases i with
    | zero => simp [updateLight, h]
    | succ n => simp [updateLight, ih n]

lemma take_set_of_le {α : Type} (l : List α) (i b : ℕ) (a : α) (h : b ≤ i) :
    (l.set i a).take b = l.take b := by
  induction l generalizing i b with
  | nil => simp
  | cons x xs ih =>
    cases b with
    | zero => simp
    | succ b =>
      cases i with
      | zero => omega
      | succ i =>
        simp only [List.set_cons_succ, List.take_succ_cons]
        exact congrArg (x :: ·) (ih i b (by omega))

lemma map_radius_set (l : List PointLight) (i : ℕ) (L : PointLight) :
    (l.set i L).map PointLight.radius = (l.map PointLight.radius).set i L.radius := by
  induction l generalizing i with
  | nil => simp
  | cons x xs ih =>
    cases i with
    | zero => simp
    | succ n => simp [List.set, ih n]

lemma setCandleRadii_length (l : List PointLight) (b : ℕ) (g : ℚ) :
    (setCandleRadii l b g).length = l.length := by
  induction l generalizing b with
  | nil => cases b <;> rfl
  | cons L rest ih =>
    cases b with
    | zero => rfl
    | succ b => simpa [setCandleRadii] using ih b

lemma setCandleRadii_take (l : List PointLight) (b : ℕ) (g : ℚ) (h : b ≤ l.length) :
    ((setCandleRadii l b g).map PointLight.radius).take b = List.replicate b g := by
  induction l generalizing b with
  | nil =>
    have : b = 0 := by simpa using h
    subst this; rfl
  | cons L rest ih =>
    cases b with
    | zero => rfl
    | succ b =>
      simp only [setCandleRadii, List.map_cons, List.take_succ_cons, List.replicate_succ]
      exact congrArg (g :: ·) (ih b (by simpa using h))

lemma wall_candle_step_lights (ml : CMathLib) (t : ℚ)
    (st : List WallCandle × List PointLight) (i : ℕ) :
    ((wall_candle_step ml t st i).2).map PointLight.radius = st.2.map PointLight.radius ∧
    ((wall_candle_step ml t st i).2).length = st.2.length := by
  unfold wall_candle_step
  exact ⟨updateLight_map_radius _ _ _ (fun L => rfl),
    (updateLight_length _ _ _).trans rfl⟩

lemma table_candle_step_lights (ml : CMathLib) (t : ℚ)
    (st : List TableCandle × List PointLight) (i : ℕ) :
    ((table_candle_step ml t st i).2).map PointLight.radius = st.2.map PointLight.radius ∧
    ((table_candle_step ml t st i).2).length = st.2.length := by
  unfold table_candle_step
  exact ⟨updateLight_map_radius _ _ _ (fun L => rfl),
    (updateLight_length _ _ _).trans rfl⟩

lemma wall_anim_block_lights (ml : CMathLib) (s : MainState) :
    ((wall_anim_block ml s).lights).map PointLight.radius = s.lights.map PointLight.radius ∧
    ((wall_anim_block ml s).lights).length = s.lights.length := by
  unfold wall_anim_block
  have h : ∀ (idxs : List ℕ) (st : List WallCandle × List PointLight),
      ((idxs.foldl (wall_candle_step ml s.animation_time) st).2).map PointLight.radius =
        st.2.map PointLight.radius ∧
      ((idxs.foldl (wall_candle_step ml s.animation_time) st).2).length = st.2.length := by
    intro idxs
    induction idxs with
    | nil => intro st; exact ⟨rfl, rfl⟩
    | cons i idxs ih =>
      intro st
      obtain ⟨h1, h2⟩ := wall_candle_step_lights ml s.animation_time st i
      obtain ⟨h3, h4⟩ := ih (wall_candle_step ml s.animation_time st i)
      exact ⟨h3.trans h1, h4.trans h2⟩
  exact h _ _

lemma table_anim_block_lights (ml : CMathLib) (s : MainState) :
    ((table_anim_block ml s).lights).map PointLight.radius = s.lights.map PointLight.radius ∧
    ((table_anim_block ml s).lights).length = s.lights.length := by
  unfold table_anim_block
  have h : ∀ (idxs : List ℕ) (st : List TableCandle × List PointLight),
      ((idxs.foldl (table_candle_step ml s.animation_time) st).2).map PointLight.radius =
        st.2.map PointLight.radius ∧
      ((idxs.foldl (table_candle_step ml s.animation_time) st).2).length = st.2.length := by
    intro idxs
    induction idxs with
    | nil => intro st; exact ⟨rfl, rfl⟩
    | cons i idxs ih =>
      intro st
      obtain ⟨h1, h2⟩ := table_candle_step_lights ml s.animation_time st i
      obtain ⟨h3, h4⟩ := ih (table_candle_step ml s.animation_time st i)
      exact ⟨h3.trans h1, h4.trans h2⟩
  exact h _ _

lemma flashlight_follow_block_lights (s : MainState) :
    ((flashlight_follow_block s).lights).map PointLight.radius =
      s.lights.map PointLight.radius ∧
    ((flashlight_follow_block s).lights).length = s.lights.length := by
  unfold flashlight_follow_block
  split_ifs
  · exact ⟨updateLight_map_radius _ _ _ (fun L => rfl), (updateLight_length _ _ _).trans rfl⟩
  · exact ⟨rfl, rfl⟩

lemma f_key_block_lights_facts (inp : FrameInput) (s : MainState) :
    (((f_key_block inp s).lights).map PointLight.radius).take s.base_num_lights =
      ((s.lights.map PointLight.radius).take s.base_num_lights) ∧
    ((f_key_block inp s).lights).length = s.lights.length := by
  rcases f_key_block_lights inp s with h | h <;> rw [h]
  · exact ⟨rfl, rfl⟩
  · exact ⟨by rw [map_radius_set, take_set_of_le _ _ _ _ (le_refl _)], by simp⟩

lemma q_adjust_int_bounds (kq ql : Bool) (g : ℚ) (k : ℤ) (hkk : g = k)
    (h1 : 1 ≤ g) (h2 : g ≤ 20) :
    ∃ m : ℤ, q_adjust kq ql g = m ∧ 1 ≤ q_adjust kq ql g ∧ q_adjust kq ql g ≤ 20 := by
  unfold q_adjust
  split_ifs with ha hb
  · exact ⟨1, by norm_num, by norm_num, by norm_num⟩
  · refine ⟨k - 1, ?_, by linarith, by linarith⟩
    rw [hkk]; push_cast; ring
  · exact ⟨k, hkk, h1, h2⟩

lemma e_adjust_int_bounds (ke el : Bool) (g : ℚ) (k : ℤ) (hkk : g = k)
    (h1 : 1 ≤ g) (h2 : g ≤ 20) :
    ∃ m : ℤ, e_adjust ke el g = m ∧ 1 ≤ e_adjust ke el g ∧ e_adjust ke el g ≤ 20 := by
  unfold e_adjust
  split_ifs with ha hb
  · exact ⟨20, by norm_num, by norm_num, by norm_num⟩
  · refine ⟨k + 1, ?_, by linarith, by linarith⟩
    rw [hkk]; push_cast; ring
  · exact ⟨k, hkk, h1, h2⟩

lemma q_key_block_inv (inp : FrameInput) (X : MainState)
    (hlen : X.lights.length = 8) (hbase : X.base_num_lights = 6)
    (htake : (X.lights.map PointLight.radius).take X.base_num_lights =
      List.replicate X.base_num_lights X.global_light_radius) :
    ((q_key_block inp X).lights.map PointLight.radius).take
        (q_key_block inp X).base_num_lights =
      List.replicate (q_key_block inp X).base_num_lights
        (q_key_block inp X).global_light_radius ∧
    (q_key_block inp X).lights.length = 8 ∧
    (q_key_block inp X).base_num_lights = 6 ∧
    (q_key_block inp X).global_light_radius =
      q_adjust inp.keyQ X.q_key_pressed X.global_light_radius := by
  rw [q_key_block_lights, q_key_block_gr, q_key_block_base]
  unfold q_adjust
  by_cases h : inp.keyQ = true ∧ X.q_key_pressed = false
  · simp only [if_pos h]
    exact ⟨setCandleRadii_take _ _ _ (by omega),
      by rw [setCandleRadii_length, hlen], hbase, trivial⟩
  · simp only [if_neg h]
    exact ⟨htake, hlen, hbase, trivial⟩

lemma e_key_block_inv (inp : FrameInput) (X : MainState)
    (hlen : X.lights.length = 8) (hbase : X.base_num_lights = 6)
    (htake : (X.lights.map PointLight.radius).take X.base_num_lights =
      List.replicate X.base_num_lights X.global_light_radius) :
    ((e_key_block inp X).lights.map PointLight.radius).take
        (e_key_block inp X).base_num_lights =
      List.replicate (e_key_block inp X).base_num_lights
        (e_key_block inp X).global_light_radius ∧
    (e_key_block inp X).lights.length = 8 ∧
    (e_key_block inp X).base_num_lights = 6 ∧
    (e_key_block inp X).global_light_radius =
      e_adjust inp.keyE X.e_key_pressed X.global_light_radius := by
  rw [e_key_block_lights, e_key_block_gr, e_key_block_base]
  unfold e_adjust
  by_cases h : inp.keyE = true ∧ X.e_key_pressed = false
  · simp only [if_pos h]
    exact ⟨setCandleRadii_take _ _ _ (by omega),
      by rw [setCandleRadii_length, hlen], hbase, trivial⟩
  · simp only [if_neg h]
    exact ⟨htake, hlen, hbase, trivial⟩

lemma inv6_preserved (ml : CMathLib) (s : MainState) (inp : FrameInput)
    (hb : s.base_num_lights = 6) (hl : s.lights.length = 8)
    (hk : ∃ k : ℤ, s.global_light_radius = k)
    (hg1 : 1 ≤ s.global_light_radius) (hg2 : s.global_light_radius ≤ 20)
    (hr : (s.lights.map PointLight.radius).take s.base_num_lights =
      List.replicate s.base_num_lights s.global_light_radius) :
    (main_state_update ml s inp).base_num_lights = 6 ∧
    (main_state_update ml s inp).lights.length = 8 ∧
    (∃ k : ℤ, (main_state_update ml s inp).global_light_radius = k) ∧
    1 ≤ (main_state_update ml s inp).global_light_radius ∧
    (main_state_update ml s inp).global_light_radius ≤ 20 ∧
    ((main_state_update ml s inp).lights.map PointLight.radius).take
        (main_state_update ml s inp).base_num_lights =
      List.replicate (main_state_update ml s inp).base_num_lights
        (main_state_update ml s inp).global_light_radius := by
  obtain ⟨k, hkk⟩ := hk
  -- the scalar facts about the new global radius
  obtain ⟨kq, hq1, hq2, hq3⟩ :=
    q_adjust_int_bounds inp.keyQ s.q_key_pressed s.global_light_radius k hkk hg1 hg2
  obtain ⟨ke, he1, he2, he3⟩ :=
    e_adjust_int_bounds inp.keyE s.e_key_pressed
      (q_adjust inp.keyQ s.q_key_pressed s.global_light_radius) kq hq1 hq2 hq3
  refine ⟨(main_update_base ml s inp).trans hb, ?_⟩
  have hgr := main_update_gr ml s inp
  -- walk the lights through the block composition
  unfold main_state_update pre_r_state at hgr ⊢
  set sA := camera_block ml inp s with hsA
  set sB := anim_time_block inp sA with hsB
  set sC := startup_timer_block inp sB with hsC
  set sD := wall_anim_block ml sC with hsD
  set sE := table_anim_block ml sD with hsE
  set sF := f_key_block inp sE with hsF
  set sG := q_key_block inp sF with hsG
  set sH := e_key_block inp sG with hsH
  set sI := tab_key_block inp sH with hsI
  set sJ := r_key_block inp sI with hsJ
  have hClights : sC.lights = s.lights := by
    rw [hsC, startup_timer_block_lights, hsB, anim_time_block_lights, hsA, camera_block_lights]
  have hEradii : sE.lights.map PointLight.radius = s.lights.map PointLight.radius := by
    rw [hsE, (table_anim_block_lights ml sD).1, hsD, (wall_anim_block_lights ml sC).1, hClights]
  have hElen : sE.lights.length = 8 := by
    rw [hsE, (table_anim_block_lights ml sD).2, hsD, (wall_anim_block_lights ml sC).2,
      hClights, hl]
  have hEbase : sE.base_num_lights = s.base_num_lights := by
    rw [hsE, table_anim_block_base, hsD, wall_anim_block_base, hsC, startup_timer_block_base,
      hsB, anim_time_block_base, hsA, camera_block_base]
  have hEqk : sE.q_key_pressed = s.q_key_pressed := by
    rw [hsE, table_anim_block_qk, hsD, wall_anim_block_qk, hsC, startup_timer_block_qk,
      hsB, anim_time_block_qk, hsA, camera_block_qk]
  have hEek : sE.e_key_pressed = s.e_key_pressed := by
    rw [hsE, table_anim_block_ek, hsD, wall_anim_block_ek, hsC, startup_timer_block_ek,
      hsB, anim_time_block_ek, hsA, camera_block_ek]
  have hEgr : sE.global_light_radius = s.global_light_radius := by
    rw [hsE, table_anim_block_gr, hsD, wall_anim_block_gr, hsC, startup_timer_block_gr,
      hsB, anim_time_block_gr, hsA, camera_block_gr]
  have hFbase : sF.base_num_lights = 6 := by
    rw [hsF, f_key_block_base, hEbase, hb]
  have hFlen : sF.lights.length = 8 := by
    rw [hsF, (f_key_block_lights_facts inp sE).2, hElen]
  have hFgr : sF.global_light_radius = s.global_light_radius := by
    rw [hsF, f_key_block_gr, hEgr]
  have hFqk : sF.q_key_pressed = s.q_key_pressed := by
    rw [hsF, f_key_block_qk, hEqk]
  have hFek : sF.e_key_pressed = s.e_key_pressed := by
    rw [hsF, f_key_block_ek, hEek]
  have hFtake : (sF.lights.map PointLight.radius).take sF.base_num_lights =
      List.replicate sF.base_num_lights sF.global_light_radius := by
    have h1 := (f_key_block_lights_facts inp sE).1
    rw [← hsF] at h1
    rw [hEbase, hb] at h1
    rw [hFbase, hFgr, h1]
    have h2 : (sE.lights.map PointLight.radius).take 6 =
        (s.lights.map PointLight.radius).take 6 := by rw [hEradii]
    rw [h2, ← hb, hr, hb]
  have hG := q_key_block_inv inp sF hFlen hFbase hFtake
  rw [← hsG] at hG
  obtain ⟨hGtake, hGlen, hGbase, hGgr⟩ := hG
  have hH := e_key_block_inv inp sG hGlen hGbase hGtake
  rw [← hsH] at hH
  obtain ⟨hHtake, hHlen, hHbase, hHgr⟩ := hH
  have hHgr2 : sH.global_light_radius =
      e_adjust inp.keyE s.e_key_pressed (q_adjust inp.keyQ s.q_key_pressed s.global_light_radius) := by
    rw [hHgr, hGgr, hFqk, hFgr]
    have hGek : sG.e_key_pressed = s.e_key_pressed := by
      rw [hsG, q_key_block_ek, hFek]
    rw [hGek]
  have hJlights : sJ.lights = sH.lights := by
    rw [hsJ, r_key_block_lights, hsI, tab_key_block_lights]
  have hJbase : sJ.base_num_lights = 6 := by
    rw [hsJ, r_key_block_base, hsI, tab_key_block_base, hHbase]
  have hJgr : sJ.global_light_radius = sH.global_light_radius := by
    rw [hsJ, r_key_block_gr, hsI, tab_key_block_gr]
  have hfinlen : (flashlight_follow_block sJ).lights.length = 8 := by
    rw [(flashlight_follow_block_lights sJ).2, hJlights, hHlen]
  have hfinbase : (flashlight_follow_block sJ).base_num_lights = 6 := by
    rw [flashlight_follow_block_base, hJbase]
  have hfingr : (flashlight_follow_block sJ).global_light_radius = sH.global_light_radius := by
    rw [flashlight_follow_block_gr, hJgr]
  have hfintake : ((flashlight_follow_block sJ).lights.map PointLight.radius).take
      (flashlight_follow_block sJ).base_num_lights =
      List.replicate (flashlight_follow_block sJ).base_num_lights
        (flashlight_follow_block sJ).global_light_radius := by
    rw [(flashlight_follow_block_lights sJ).1, hJlights, hfinbase, hfingr, ← hHbase, hHtake,
      hHbase]
  refine ⟨hfinlen, ⟨ke, ?_⟩, ?_, ?_, hfintake⟩
  · rw [hfingr, hHgr2]; exact he1
  · rw [hfingr, hHgr2]; exact he2
  · rw [hfingr, hHgr2]; exact he3

lemma foldl_inv {σ α : Type} (f : σ → α → σ) (P : σ → Prop)
    (hstep : ∀ s a, P s → P (f s a)) : ∀ (l : List α) (s), P s → P (l.foldl f s) := by
  intro l
  induction l with
  | nil => intro s hs; exact hs
  | cons a l ih => intro s hs; exact ih _ (hstep s a hs)

lemma inv6_init :
    main_state_init.base_num_lights = 6 ∧
    main_state_init.lights.length = 8 ∧
    (∃ k : ℤ, main_state_init.global_light_radius = k) ∧
    1 ≤ main_state_init.global_light_radius ∧
    main_state_init.global_light_radius ≤ 20 ∧
    (main_state_init.lights.map PointLight.radius).take main_state_init.base_num_lights =
      List.replicate main_state_init.base_num_lights main_state_init.global_light_radius := by
  refine ⟨rfl, rfl, ⟨8, by norm_num [main_state_init, global_light_radius_init]⟩,
    by norm_num [main_state_init, global_light_radius_init],
    by norm_num [main_state_init, global_light_radius_init], rfl⟩

lemma inv6_run (ml : CMathLib) (inputs : List FrameInput) :
    (main_state_run ml main_state_init inputs).base_num_lights = 6 ∧
    (main_state_run ml main_state_init inputs).lights.length = 8 ∧
    (∃ k : ℤ, (main_state_run ml main_state_init inputs).global_light_radius = k) ∧
    1 ≤ (main_state_run ml main_state_init inputs).global_light_radius ∧
    (main_state_run ml main_state_init inputs).global_light_radius ≤ 20 ∧
    ((main_state_run ml main_state_init inputs).lights.map PointLight.radius).take
        (main_state_run ml main_state_init inputs).base_num_lights =
      List.replicate (main_state_run ml main_state_init inputs).base_num_lights
        (main_state_run ml main_state_init inputs).global_light_radius := by
  exact foldl_inv (main_state_update ml)
    (fun s => s.base_num_lights = 6 ∧ s.lights.length = 8 ∧
      (∃ k : ℤ, s.global_light_radius = k) ∧
      1 ≤ s.global_light_radius ∧ s.global_light_radius ≤ 20 ∧
      (s.lights.map PointLight.radius).take s.base_num_lights =
        List.replicate s.base_num_lights s.global_light_radius)
    (fun s inp h => inv6_preserved ml s inp h.1 h.2.1 h.2.2.1 h.2.2.2.1 h.2.2.2.2.1
      h.2.2.2.2.2)
    inputs main_state_init inv6_init

/-- C6: along every run of the frame loop from initialization, whatever
keys are pressed, the global light radius is an integer in [1, 20] and the
first base_num_lights lights — the candle lights — all carry exactly the
(clamped) global radius; and each update moves the radius by the Q step
(subtract 1, clamp at 1, only when Q is newly pressed) followed by the E
step (add 1, clamp at 20, only when E is newly pressed), so every accepted
press changes it by one and clamping keeps it inside [1, 20]. -/
theorem spec_c6_light_radius_clamp :
    (∀ (ml : CMathLib) (inputs : List FrameInput),
      (∃ k : ℤ, (main_state_run ml main_state_init inputs).global_light_radius = k) ∧
      1 ≤ (main_state_run ml main_state_init inputs).global_light_radius ∧
      (main_state_run ml main_state_init inputs).global_light_radius ≤ 20 ∧
      ((main_state_run ml main_state_init inputs).lights.map PointLight.radius).take
          (main_state_run ml main_state_init inputs).base_num_lights =
        List.replicate (main_state_run ml main_state_init inputs).base_num_lights
          (main_state_run ml main_state_init inputs).global_light_radius) ∧
    (∀ (ml : CMathLib) (s : MainState) (inp : FrameInput),
      (main_state_update ml s inp).global_light_radius =
        e_adjust inp.keyE s.e_key_pressed
          (q_adjust inp.keyQ s.q_key_pressed s.global_light_radius)) := by
  constructor
  · intro ml inputs
    obtain ⟨_, _, h3, h4, h5, h6⟩ := inv6_run ml inputs
    exact ⟨h3, h4, h5, h6⟩
  · exact main_update_gr

lemma scroll_callback_fd (s : MainState) (y : ℚ) (f : Bool) :
    (scroll_callback s y f).flashlight_distance =
      if f = true ∧ s.flashlight_active = true then
        clamp_distance (s.flashlight_distance + scroll_step_amount y)
      else s.flashlight_distance := by
  unfold scroll_callback clamp_distance scroll_step_amount
  dsimp only
  split_ifs <;> first | rfl | ring1 | (exfalso; linarith)

lemma main_update_fd_or (ml : CMathLib) (s : MainState) (inp : FrameInput) :
    (main_state_update ml s inp).flashlight_distance = s.flashlight_distance ∨
    (main_state_update ml s inp).flashlight_distance = 0 := by
  rw [main_update_fd]
  split_ifs
  · exact Or.inr rfl
  · exact Or.inl rfl

lemma clamp_distance_inv (v : ℚ) (h : ∃ k : ℤ, v = k / 2) :
    (∃ k : ℤ, clamp_distance v = k / 2) ∧
    -5 ≤ clamp_distance v ∧ clamp_distance v ≤ 10 := by
  obtain ⟨k, hk⟩ := h
  unfold clamp_distance
  split_ifs with h1 h2
  · exact ⟨⟨-10, by norm_num⟩, by norm_num, by norm_num⟩
  · exact ⟨⟨20, by norm_num⟩, by norm_num, by norm_num⟩
  · exact ⟨⟨k, hk⟩, by linarith, by linarith⟩

lemma scroll_step_amount_half (y : ℚ) : ∃ m : ℤ, scroll_step_amount y = m / 2 := by
  unfold scroll_step_amount
  split_ifs
  · exact ⟨1, by norm_num⟩
  · exact ⟨-1, by norm_num⟩
  · exact ⟨0, by norm_num⟩

lemma scroll_inv (s : MainState) (y : ℚ) (f : Bool)
    (h1 : ∃ k : ℤ, s.flashlight_distance = k / 2)
    (h2 : -5 ≤ s.flashlight_distance) (h3 : s.flashlight_distance ≤ 10) :
    (∃ k : ℤ, (scroll_callback s y f).flashlight_distance = k / 2) ∧
    -5 ≤ (scroll_callback s y f).flashlight_distance ∧
    (scroll_callback s y f).flashlight_distance ≤ 10 := by
  obtain ⟨k, hk⟩ := h1
  rw [scroll_callback_fd]
  split_ifs with hacc
  · refine clamp_distance_inv _ ?_
    obtain ⟨m, hm⟩ := scroll_step_amount_half y
    refine ⟨k + m, ?_⟩
    rw [hk, hm]; push_cast; ring
  · exact ⟨⟨k, hk⟩, h2, h3⟩

lemma inv10_run (ml : CMathLib) (events : List AppEvent) :
    (∃ k : ℤ, (app_run ml main_state_init events).flashlight_distance = k / 2) ∧
    -5 ≤ (app_run ml main_state_init events).flashlight_distance ∧
    (app_run ml main_state_init events).flashlight_distance ≤ 10 := by
  unfold app_run
  refine foldl_inv
    (fun s e => match e with
      | AppEvent.frame inp => main_state_update ml s inp
      | AppEvent.scroll y f => scroll_callback s y f)
    (fun s => (∃ k : ℤ, s.flashlight_distance = (k : ℚ) / 2) ∧
      -5 ≤ s.flashlight_distance ∧ s.flashlight_distance ≤ 10)
    (fun s e h => ?_) events main_state_init
    ⟨⟨0, by norm_num [main_state_init]⟩, by norm_num [main_state_init],
      by norm_num [main_state_init]⟩
  obtain ⟨⟨k, hk⟩, hlo, hhi⟩ := h
  cases e with
  | frame inp =>
    rcases main_update_fd_or ml s inp with hd | hd <;> rw [hd]
    · exact ⟨⟨k, hk⟩, hlo, hhi⟩
    · exact ⟨⟨0, by norm_num⟩, by norm_num, by norm_num⟩
  | scroll y f => exact scroll_inv s y f ⟨k, hk⟩ hlo hhi

/-- C10: the flashlight distance starts at 0, and along every run of frame
updates and scroll events it is always an integer multiple of 0.5 inside
[-5, 10]; each scroll event — accepted only while F is held and the
flashlight is active — adds or subtracts exactly 0.5 and then clamps to
[-5, 10], and the R key (newly pressed while the flashlight is active)
resets the distance to 0. -/
theorem spec_c10_flashlight_distance :
    main_state_init.flashlight_distance = 0 ∧
    (∀ (ml : CMathLib) (events : List AppEvent),
      (∃ k : ℤ, (app_run ml main_state_init events).flashlight_distance = k / 2) ∧
      -5 ≤ (app_run ml main_state_init events).flashlight_distance ∧
      (app_run ml main_state_init events).flashlight_distance ≤ 10) ∧
    (∀ (s : MainState) (y : ℚ) (f : Bool),
      (scroll_callback s y f).flashlight_distance =
        if f = true ∧ s.flashlight_active = true then
          clamp_distance (s.flashlight_distance + scroll_step_amount y)
        else s.flashlight_distance) ∧
    (∀ (ml : CMathLib) (s : MainState) (inp : FrameInput),
      (main_state_update ml s inp).flashlight_distance =
        if inp.keyR = true ∧ s.r_key_pressed = false ∧
            (pre_r_state ml inp s).flashlight_active = true then 0
        else s.flashlight_distance) :=
  ⟨rfl, inv10_run, scroll_callback_fd, main_update_fd⟩

lemma flashTimerStep_fkey (base : ℕ) (c : FlashCtrl) (d : ℚ) :
    (flashTimerStep base c d).fkey = c.fkey := by
  unfold flashTimerStep; split_ifs <;> rfl

lemma flashTimerStep_of_inactive (base : ℕ) (c : FlashCtrl) (d : ℚ)
    (h : c.active = false) : flashTimerStep base c d = c := by
  have hng : ¬(c.active = true ∧ 0 ≤ c.timer) := by rw [h]; simp
  unfold flashTimerStep
  rw [if_neg hng]

lemma flashKeyStep_true_fkey (base : ℕ) (c : FlashCtrl) :
    (flashKeyStep base c true).fkey = true := by
  unfold flashKeyStep
  split_ifs <;> simp_all

lemma flashKeyStep_false (base : ℕ) (c : FlashCtrl) :
    flashKeyStep base c false =
      if c.fkey = true ∧ c.active = true then (⟨false, base, false, c.timer⟩ : FlashCtrl)
      else ⟨c.active, c.num, false, c.timer⟩ := by
  unfold flashKeyStep
  rw [if_neg (by simp : ¬(false = true))]

lemma flash_two_cycle (base : ℕ) (c : FlashCtrl) (d1 d2 d3 d4 : ℚ) :
    (flashCtrlStep base (flashCtrlStep base (flashCtrlStep base (flashCtrlStep base c true d1)
      false d2) true d3) false d4).num = base ∧
    (flashCtrlStep base (flashCtrlStep base (flashCtrlStep base (flashCtrlStep base c true d1)
      false d2) true d3) false d4).active = false := by
  set c1 := flashCtrlStep base c true d1 with hc1
  have h1 : c1.fkey = true := by
    rw [hc1]; exact flashKeyStep_true_fkey _ _
  set c2 := flashCtrlStep base c1 false d2 with hc2
  have h2a : c2.active = false := by
    rw [hc2]
    unfold flashCtrlStep
    rw [flashKeyStep_false]
    have hf : (flashTimerStep base c1 d2).fkey = true := by rw [flashTimerStep_fkey]; exact h1
    split_ifs with h
    · rfl
    · dsimp only
      rw [hf] at h
      simpa using fun hx => h ⟨rfl, hx⟩
  have h2f : c2.fkey = false := by
    rw [hc2]; unfold flashCtrlStep; rw [flashKeyStep_false]; split_ifs <;> rfl
  set c3 := flashCtrlStep base c2 true d3 with hc3
  have h3 : c3 = ⟨true, base + 1, true, c2.timer⟩ := by
    rw [hc3]
    unfold flashCtrlStep
    rw [flashTimerStep_of_inactive _ _ _ h2a]
    unfold flashKeyStep
    rw [if_pos rfl, if_pos h2f, if_pos h2a]
  rw [h3]
  unfold flashCtrlStep
  rw [flashKeyStep_false]
  unfold flashTimerStep
  dsimp only
  split_ifs <;> simp_all

/-- C4 counterexample: from the freshly initialised state (whose startup
flashlight is active, num_lights = 7), two F press-release cycles leave
num_lights = 6 — the candle count — not the pre-press value 7: the first
release turns the startup flashlight off, so the two cycles do not cancel
out. -/
theorem spec_c4_counterexample :
    main_state_init.num_lights = 7 ∧
    (main_state_run mlZero main_state_init
      [mkF true (1/10), mkF false (1/10), mkF true (1/10), mkF false (1/10)]).num_lights = 6 := by
  refine ⟨rfl, ?_⟩
  have h : flashCtrlOf (main_state_run mlZero main_state_init
      [mkF true (1/10), mkF false (1/10), mkF true (1/10), mkF false (1/10)]) =
      flashCtrlStep 6 (flashCtrlStep 6 (flashCtrlStep 6 (flashCtrlStep 6
        (⟨true, 7, false, 0⟩ : FlashCtrl) true (1/10)) false (1/10)) true (1/10)) false (1/10) := by
    show flashCtrlOf (main_state_update mlZero (main_state_update mlZero (main_state_update mlZero
      (main_state_update mlZero main_state_init (mkF true (1/10))) (mkF false (1/10)))
      (mkF true (1/10))) (mkF false (1/10))) = _
    rw [main_update_ctrl, main_update_ctrl, main_update_ctrl, main_update_ctrl,
      main_update_base, main_update_base, main_update_base]
    rfl
  have h2 : flashCtrlStep 6 (flashCtrlStep 6 (flashCtrlStep 6 (flashCtrlStep 6
      (⟨true, 7, false, 0⟩ : FlashCtrl) true (1/10)) false (1/10)) true (1/10)) false (1/10) =
      ⟨false, 6, false, 3/10⟩ := by
    norm_num [flashCtrlStep, flashTimerStep, flashKeyStep]
  exact congrArg FlashCtrl.num (h.trans h2)

/-- C4 amended: two F press-release cycles always leave the flashlight off
and num_lights equal to base_num_lights (the candle count); this equals the
pre-press value exactly when the flashlight was inactive — with num_lights
= base_num_lights — before the first press, which holds in every reachable
state except while the startup flashlight (or a held F) keeps the
flashlight active. -/
theorem spec_c4_amended : ∀ (ml : CMathLib) (s : MainState) (d1 d2 d3 d4 : ℚ),
    (main_state_run ml s
      [mkF true d1, mkF false d2, mkF true d3, mkF false d4]).num_lights =
      s.base_num_lights ∧
    (main_state_run ml s
      [mkF true d1, mkF false d2, mkF true d3, mkF false d4]).flashlight_active = false := by
  intro ml s d1 d2 d3 d4
  have key := flash_two_cycle s.base_num_lights (flashCtrlOf s) d1 d2 d3 d4
  have h : flashCtrlOf (main_state_run ml s
      [mkF true d1, mkF false d2, mkF true d3, mkF false d4]) =
      flashCtrlStep s.base_num_lights (flashCtrlStep s.base_num_lights
        (flashCtrlStep s.base_num_lights (flashCtrlStep s.base_num_lights
          (flashCtrlOf s) true d1) false d2) true d3) false d4 := by
    show flashCtrlOf (main_state_update ml (main_state_update ml (main_state_update ml
      (main_state_update ml s (mkF true d1)) (mkF false d2)) (mkF true d3)) (mkF false d4)) = _
    rw [main_update_ctrl, main_update_ctrl, main_update_ctrl, main_update_ctrl,
      main_update_base, main_update_base, main_update_base]
    rfl
  exact ⟨(congrArg FlashCtrl.num h).trans key.1,
    (congrArg FlashCtrl.active h).trans key.2⟩

lemma run_ctrl_idle (ml : CMathLib) : ∀ (l : List ℚ) (s : MainState),
    flashCtrlOf (main_state_run ml s (l.map mkIdle)) =
      l.foldl (fun c d => flashCtrlStep s.base_num_lights c false d) (flashCtrlOf s) ∧
    (main_state_run ml s (l.map mkIdle)).base_num_lights = s.base_num_lights := by
  intro l
  induction l with
  | nil => intro s; exact ⟨rfl, rfl⟩
  | cons d l ih =>
    intro s
    obtain ⟨ha, hb⟩ := ih (main_state_update ml s (mkIdle d))
    have hstep : main_state_run ml s ((d :: l).map mkIdle) =
        main_state_run ml (main_state_update ml s (mkIdle d)) (l.map mkIdle) := rfl
    constructor
    · rw [hstep, ha, main_update_base, main_update_ctrl]
      rfl
    · rw [hstep, hb, main_update_base]

lemma idle_ctrl (ml : CMathLib) (dts : List ℚ) (k : ℕ) :
    flashCtrlOf (idle_state_after ml dts k) =
      (dts.take k).foldl (fun c d => flashCtrlStep 6 c false d) ⟨true, 7, false, 0⟩ := by
  unfold idle_state_after
  exact (run_ctrl_idle ml (dts.take k) main_state_init).1

lemma idle_char (dts : List ℚ) (hpos : ∀ d ∈ dts, 0 < d) : ∀ (k : ℕ),
    (dts.take k).foldl (fun c d => flashCtrlStep 6 c false d) ⟨true, 7, false, 0⟩ =
      if (dts.take k).sum ≤ 1/2 then (⟨true, 7, false, (dts.take k).sum⟩ : FlashCtrl)
      else ⟨false, 6, false, -1⟩ := by
  intro k
  induction k with
  | zero =>
    rw [List.take_zero]
    rw [if_pos (by norm_num : (List.sum ([] : List ℚ)) ≤ 1/2)]
    rfl
  | succ k ih =>
    rcases hlt : dts[k]? with _ | d
    · have htk : dts.take (k + 1) = dts.take k := by
        rw [List.take_succ, hlt]; simp
      rw [htk]; exact ih
    · have hd : d ∈ dts := by
        obtain ⟨hlen, hel⟩ := List.getElem?_eq_some.mp hlt
        exact hel ▸ List.getElem_mem hlen
      have hdpos := hpos d hd
      have htk : dts.take (k + 1) = dts.take k ++ [d] := by
        rw [List.take_succ, hlt]; rfl
      have hsum0 : 0 ≤ (dts.take k).sum :=
        List.sum_nonneg (fun x hx => le_of_lt (hpos x (List.mem_of_mem_take hx)))
      rw [htk, List.foldl_append, List.sum_append, ih]
      simp only [List.foldl_cons, List.foldl_nil, List.sum_cons, List.sum_nil, add_zero]
      by_cases hle : (dts.take k).sum ≤ 1/2
      · rw [if_pos hle]
        unfold flashCtrlStep flashTimerStep
        by_cases hf : (1 : ℚ)/2 < (dts.take k).sum + d
        · rw [if_pos ⟨rfl, hsum0⟩, if_pos hf, flashKeyStep_false, if_neg (by simp),
            if_neg (by linarith)]
        · rw [if_pos ⟨rfl, hsum0⟩, if_neg hf, flashKeyStep_false, if_neg (by simp),
            if_pos (by linarith)]
      · rw [if_neg hle]
        unfold flashCtrlStep
        rw [flashTimerStep_of_inactive _ _ _ rfl, flashKeyStep_false, if_neg (by simp),
          if_neg (by push_neg at hle ⊢; linarith)]

lemma sum_take_mono (dts : List ℚ) (hpos : ∀ d ∈ dts, 0 < d) :
    Monotone (fun k => (dts.take k).sum) := by
  apply monotone_nat_of_le_succ
  intro n
  rw [List.take_succ, List.sum_append]
  have h : 0 ≤ (dts[n]?.toList).sum := by
    rcases hn : dts[n]? with _ | d
    · simp
    · have hd : d ∈ dts := by
        obtain ⟨hlen, hel⟩ := List.getElem?_eq_some.mp hn
        exact hel ▸ List.getElem_mem hlen
      simpa using le_of_lt (hpos d hd)
  linarith

lemma idle_active_iff (ml : CMathLib) (dts : List ℚ) (hpos : ∀ d ∈ dts, 0 < d) (k : ℕ) :
    ((idle_state_after ml dts k).flashlight_active = true ↔ (dts.take k).sum ≤ 1/2) := by
  have h := congrArg FlashCtrl.active ((idle_ctrl ml dts k).trans (idle_char dts hpos k))
  have h2 : (idle_state_after ml dts k).flashlight_active =
      (if (dts.take k).sum ≤ 1/2 then (⟨true, 7, false, (dts.take k).sum⟩ : FlashCtrl)
        else ⟨false, 6, false, -1⟩).active := h
  rw [h2]
  split_ifs with hc
  · simpa using hc
  · simpa using hc

/-- C9 counterexample: from the freshly initialised state, one update with
delta 0.6 and the F key down is the first update in which the accumulated
startup timer exceeds 0.5 s; the one-shot timer fires (it is set to -1 and
can never fire again), but at the end of that update the light count is 7,
not the candle count 6: the same update's fresh F press re-activated the
flashlight, so the count does not return to the candle count at that
update. -/
theorem spec_c9_counterexample :
    (main_state_update mlZero main_state_init (mkF true (3/5))).startup_flashlight_timer = -1 ∧
    (main_state_update mlZero main_state_init (mkF true (3/5))).flashlight_active = true ∧
    (main_state_update mlZero main_state_init (mkF true (3/5))).num_lights = 7 ∧
    main_state_init.base_num_lights = 6 ∧
    main_state_init.startup_flashlight_timer = 0 := by
  have h := main_update_ctrl mlZero main_state_init (mkF true (3/5))
  have h2 : flashCtrlStep main_state_init.base_num_lights (flashCtrlOf main_state_init)
      (mkF true (3/5)).keyF (mkF true (3/5)).delta_time = ⟨true, 7, true, -1⟩ := by
    show flashCtrlStep 6 ⟨true, 7, false, 0⟩ true (3/5) = _
    norm_num [flashCtrlStep, flashTimerStep, flashKeyStep]
  have h3 := h.trans h2
  exact ⟨congrArg FlashCtrl.timer h3, congrArg FlashCtrl.active h3,
    congrArg FlashCtrl.num h3, rfl, rfl⟩

/-- C9 amended: in every input-free run with positive frame times, the
startup flashlight is auto-deactivated exactly once — during the first
update at which the accumulated startup timer exceeds 0.5 seconds — and at
the end of that update the light count is back at the candle count and the
timer (at -1) never triggers a deactivation again; F-key input can defeat
this (see the counterexample), so the guarantee is stated for runs without
key input. -/
theorem spec_c9_startup_timer : ∀ (ml : CMathLib) (dts : List ℚ),
    (∀ d ∈ dts, 0 < d) →
    (∀ k, deactivates_at ml dts k ↔
      ((dts.take (k + 1)).sum > 1/2 ∧ (dts.take k).sum ≤ 1/2)) ∧
    (∀ k, deactivates_at ml dts k →
      (idle_state_after ml dts (k + 1)).num_lights = main_state_init.base_num_lights ∧
      (idle_state_after ml dts (k + 1)).startup_flashlight_timer = -1) ∧
    (∀ k j, deactivates_at ml dts k → deactivates_at ml dts j → k = j) ∧
    (dts.sum > 1/2 → ∃ k, k < dts.length ∧ deactivates_at ml dts k) := by
  intro ml dts hpos
  have hiff : ∀ k, deactivates_at ml dts k ↔
      ((dts.take (k + 1)).sum > 1/2 ∧ (dts.take k).sum ≤ 1/2) := by
    intro k
    unfold deactivates_at
    rw [idle_active_iff ml dts hpos k]
    constructor
    · rintro ⟨h1, h2⟩
      refine ⟨?_, h1⟩
      by_contra hc
      push_neg at hc
      have := (idle_active_iff ml dts hpos (k + 1)).mpr hc
      rw [this] at h2
      exact absurd h2 (by simp)
    · rintro ⟨h1, h2⟩
      refine ⟨h2, ?_⟩
      rcases hb : (idle_state_after ml dts (k + 1)).flashlight_active with _ | _
      · rfl
      · have := (idle_active_iff ml dts hpos (k + 1)).mp hb
        linarith
  refine ⟨hiff, ?_, ?_, ?_⟩
  · intro k hk
    have hs := ((hiff k).mp hk).1
    have h := (idle_ctrl ml dts (k + 1)).trans (idle_char dts hpos (k + 1))
    rw [if_neg (by linarith)] at h
    exact ⟨congrArg FlashCtrl.num h, congrArg FlashCtrl.timer h⟩
  · intro k j hk hj
    obtain ⟨hk1, hk2⟩ := (hiff k).mp hk
    obtain ⟨hj1, hj2⟩ := (hiff j).mp hj
    by_contra hne
    rcases Nat.lt_or_ge k j with hlt | hge
    · have : (dts.take (k + 1)).sum ≤ (dts.take j).sum := sum_take_mono dts hpos hlt
      linarith
    · have hlt2 : j < k := by omega
      have : (dts.take (j + 1)).sum ≤ (dts.take k).sum := sum_take_mono dts hpos hlt2
      linarith
  · intro hS
    have hlen : dts.length ≠ 0 := by
      intro h
      rw [List.length_eq_zero.mp h] at hS
      norm_num at hS
    have hP : ∃ k, (dts.take (k + 1)).sum > 1/2 := by
      refine ⟨dts.length - 1, ?_⟩
      rw [show dts.length - 1 + 1 = dts.length by omega, List.take_length]
      exact hS
    classical
    let m := Nat.find hP
    have hm1 : (dts.take (m + 1)).sum > 1/2 := Nat.find_spec hP
    have hm2 : (dts.take m).sum ≤ 1/2 := by
      rcases Nat.eq_zero_or_pos m with h0 | h0
      · rw [h0]; simp
      · have := Nat.find_min hP (m := m - 1) (by omega)
        push_neg at this
        rwa [show m - 1 + 1 = m by omega] at this
    refine ⟨m, ?_, (hiff m).mpr ⟨hm1, hm2⟩⟩
    have : m ≤ dts.length - 1 := Nat.find_min' hP (by
      rw [show dts.length - 1 + 1 = dts.length by omega, List.take_length]; exact hS)
    omega

/-- C9 witness: a concrete input-free run with frame times 0.3 s and 0.4 s
deactivates the startup flashlight during its second frame. -/
theorem spec_c9_witness :
    ∃ k, k < 2 ∧ deactivates_at mlZero [3/10, 2/5] k := by
  have h := spec_c9_startup_timer mlZero [3/10, 2/5] (by norm_num)
  have hsum : ([3/10, 2/5] : List ℚ).sum > 1/2 := by norm_num
  simpa using h.2.2.2 hsum

end GameGL
